import Mathlib

/-!
Chasmos: the group-creation workflow and the Supabase gateway.

A shallow embedding of

* `src/frontend/src/components/GroupCreation.jsx` (the two-step group-creation wizard), and
* `src/backend/config/supabase.js` (the storage / session gateway),

followed by the properties proved about them.

Modelling conventions.

* JavaScript strings are Lean `String`s; `.length` is measured in UTF-16 code units
  (`jsLength`).  `toLowerCase` is the Unicode default case conversion with the case data of
  Unicode 14.0.
* A contact `id` is a number or a string compared with `===` (`ContactId`); the value `NaN`,
  which is not equal to itself, is not part of the type.
* `isDocument` / `isGroup` are the truthiness of the respective property.
* React state is an explicit record (`State`); each event handler is a function on it.
  The props `onCreateGroup` and `onClose` are recorded as a list of effects.
* `Date.now()`, `new Date()` and `Math.random().toString(36)` are parameters.
-/

namespace Chasmos

/-! ## JavaScript string primitives -/

/-- ECMAScript `WhiteSpace` and `LineTerminator` code points, the ones `String.prototype.trim`
strips. -/
def isJsWhiteSpace (c : Char) : Bool :=
  let n := c.toNat
  n == 0x09 || n == 0x0A || n == 0x0B || n == 0x0C || n == 0x0D || n == 0x20 ||
  n == 0xA0 || n == 0x1680 || (0x2000 ≤ n && n ≤ 0x200A) || n == 0x2028 || n == 0x2029 ||
  n == 0x202F || n == 0x205F || n == 0x3000 || n == 0xFEFF

/-- The method `String.prototype.trim`: white space removed from both ends. -/
def trim (s : String) : String :=
  String.mk ((((s.data.dropWhile isJsWhiteSpace).reverse).dropWhile isJsWhiteSpace).reverse)

/-- JavaScript truthiness of a string: it is not empty. -/
def truthy (s : String) : Bool :=
  !s.data.isEmpty

/-- The property `String.prototype.length`: the number of UTF-16 code units. -/
def jsLength (s : String) : Nat :=
  (s.data.map (fun c => if c.toNat < 0x10000 then 1 else 2)).sum

/-! ## Unicode case data used by `String.prototype.toLowerCase` (Unicode 14.0) -/

/-- The lowercase mappings of `UnicodeData.txt`, as segments `(first, last, stride, target)`
sorted by code point: a code point `first + k * stride` up to `last` maps to
`target + k * stride`, every other code point to itself.  U+0130 is left to
`SpecialCasing.txt` (see `lowerChars`). -/
def lowercaseSegments : List (Nat × Nat × Nat × Nat) :=
  [(0x41, 0x5A, 1, 0x61), (0xC0, 0xD6, 1, 0xE0), (0xD8, 0xDE, 1, 0xF8), (0x100, 0x12E, 2, 0x101),
   (0x132, 0x136, 2, 0x133), (0x139, 0x147, 2, 0x13A), (0x14A, 0x176, 2, 0x14B),
   (0x178, 0x178, 1, 0xFF), (0x179, 0x17D, 2, 0x17A), (0x181, 0x181, 1, 0x253),
   (0x182, 0x184, 2, 0x183), (0x186, 0x186, 1, 0x254), (0x187, 0x187, 1, 0x188),
   (0x189, 0x18A, 1, 0x256), (0x18B, 0x18B, 1, 0x18C), (0x18E, 0x18E, 1, 0x1DD),
   (0x18F, 0x18F, 1, 0x259), (0x190, 0x190, 1, 0x25B), (0x191, 0x191, 1, 0x192),
   (0x193, 0x193, 1, 0x260), (0x194, 0x194, 1, 0x263), (0x196, 0x196, 1, 0x269),
   (0x197, 0x197, 1, 0x268), (0x198, 0x198, 1, 0x199), (0x19C, 0x19C, 1, 0x26F),
   (0x19D, 0x19D, 1, 0x272), (0x19F, 0x19F, 1, 0x275), (0x1A0, 0x1A4, 2, 0x1A1),
   (0x1A6, 0x1A6, 1, 0x280), (0x1A7, 0x1A7, 1, 0x1A8), (0x1A9, 0x1A9, 1, 0x283),
   (0x1AC, 0x1AC, 1, 0x1AD), (0x1AE, 0x1AE, 1, 0x288), (0x1AF, 0x1AF, 1, 0x1B0),
   (0x1B1, 0x1B2, 1, 0x28A), (0x1B3, 0x1B5, 2, 0x1B4), (0x1B7, 0x1B7, 1, 0x292),
   (0x1B8, 0x1B8, 1, 0x1B9), (0x1BC, 0x1BC, 1, 0x1BD), (0x1C4, 0x1C4, 1, 0x1C6),
   (0x1C5, 0x1C5, 1, 0x1C6), (0x1C7, 0x1C7, 1, 0x1C9), (0x1C8, 0x1C8, 1, 0x1C9),
   (0x1CA, 0x1CA, 1, 0x1CC), (0x1CB, 0x1DB, 2, 0x1CC), (0x1DE, 0x1EE, 2, 0x1DF),
   (0x1F1, 0x1F1, 1, 0x1F3), (0x1F2, 0x1F4, 2, 0x1F3), (0x1F6, 0x1F6, 1, 0x195),
   (0x1F7, 0x1F7, 1, 0x1BF), (0x1F8, 0x21E, 2, 0x1F9), (0x220, 0x220, 1, 0x19E),
   (0x222, 0x232, 2, 0x223), (0x23A, 0x23A, 1, 0x2C65), (0x23B, 0x23B, 1, 0x23C),
   (0x23D, 0x23D, 1, 0x19A), (0x23E, 0x23E, 1, 0x2C66), (0x241, 0x241, 1, 0x242),
   (0x243, 0x243, 1, 0x180), (0x244, 0x244, 1, 0x289), (0x245, 0x245, 1, 0x28C),
   (0x246, 0x24E, 2, 0x247), (0x370, 0x372, 2, 0x371), (0x376, 0x376, 1, 0x377),
   (0x37F, 0x37F, 1, 0x3F3), (0x386, 0x386, 1, 0x3AC), (0x388, 0x38A, 1, 0x3AD),
   (0x38C, 0x38C, 1, 0x3CC), (0x38E, 0x38F, 1, 0x3CD), (0x391, 0x3A1, 1, 0x3B1),
   (0x3A3, 0x3AB, 1, 0x3C3), (0x3CF, 0x3CF, 1, 0x3D7), (0x3D8, 0x3EE, 2, 0x3D9),
   (0x3F4, 0x3F4, 1, 0x3B8), (0x3F7, 0x3F7, 1, 0x3F8), (0x3F9, 0x3F9, 1, 0x3F2),
   (0x3FA, 0x3FA, 1, 0x3FB), (0x3FD, 0x3FF, 1, 0x37B), (0x400, 0x40F, 1, 0x450),
   (0x410, 0x42F, 1, 0x430), (0x460, 0x480, 2, 0x461), (0x48A, 0x4BE, 2, 0x48B),
   (0x4C0, 0x4C0, 1, 0x4CF), (0x4C1, 0x4CD, 2, 0x4C2), (0x4D0, 0x52E, 2, 0x4D1),
   (0x531, 0x556, 1, 0x561), (0x10A0, 0x10C5, 1, 0x2D00), (0x10C7, 0x10C7, 1, 0x2D27),
   (0x10CD, 0x10CD, 1, 0x2D2D), (0x13A0, 0x13EF, 1, 0xAB70), (0x13F0, 0x13F5, 1, 0x13F8),
   (0x1C90, 0x1CBA, 1, 0x10D0), (0x1CBD, 0x1CBF, 1, 0x10FD), (0x1E00, 0x1E94, 2, 0x1E01),
   (0x1E9E, 0x1E9E, 1, 0xDF), (0x1EA0, 0x1EFE, 2, 0x1EA1), (0x1F08, 0x1F0F, 1, 0x1F00),
   (0x1F18, 0x1F1D, 1, 0x1F10), (0x1F28, 0x1F2F, 1, 0x1F20), (0x1F38, 0x1F3F, 1, 0x1F30),
   (0x1F48, 0x1F4D, 1, 0x1F40), (0x1F59, 0x1F5F, 2, 0x1F51), (0x1F68, 0x1F6F, 1, 0x1F60),
   (0x1F88, 0x1F8F, 1, 0x1F80), (0x1F98, 0x1F9F, 1, 0x1F90), (0x1FA8, 0x1FAF, 1, 0x1FA0),
   (0x1FB8, 0x1FB9, 1, 0x1FB0), (0x1FBA, 0x1FBB, 1, 0x1F70), (0x1FBC, 0x1FBC, 1, 0x1FB3),
   (0x1FC8, 0x1FCB, 1, 0x1F72), (0x1FCC, 0x1FCC, 1, 0x1FC3), (0x1FD8, 0x1FD9, 1, 0x1FD0),
   (0x1FDA, 0x1FDB, 1, 0x1F76), (0x1FE8, 0x1FE9, 1, 0x1FE0), (0x1FEA, 0x1FEB, 1, 0x1F7A),
   (0x1FEC, 0x1FEC, 1, 0x1FE5), (0x1FF8, 0x1FF9, 1, 0x1F78), (0x1FFA, 0x1FFB, 1, 0x1F7C),
   (0x1FFC, 0x1FFC, 1, 0x1FF3), (0x2126, 0x2126, 1, 0x3C9), (0x212A, 0x212A, 1, 0x6B),
   (0x212B, 0x212B, 1, 0xE5), (0x2132, 0x2132, 1, 0x214E), (0x2160, 0x216F, 1, 0x2170),
   (0x2183, 0x2183, 1, 0x2184), (0x24B6, 0x24CF, 1, 0x24D0), (0x2C00, 0x2C2F, 1, 0x2C30),
   (0x2C60, 0x2C60, 1, 0x2C61), (0x2C62, 0x2C62, 1, 0x26B), (0x2C63, 0x2C63, 1, 0x1D7D),
   (0x2C64, 0x2C64, 1, 0x27D), (0x2C67, 0x2C6B, 2, 0x2C68), (0x2C6D, 0x2C6D, 1, 0x251),
   (0x2C6E, 0x2C6E, 1, 0x271), (0x2C6F, 0x2C6F, 1, 0x250), (0x2C70, 0x2C70, 1, 0x252),
   (0x2C72, 0x2C72, 1, 0x2C73), (0x2C75, 0x2C75, 1, 0x2C76), (0x2C7E, 0x2C7F, 1, 0x23F),
   (0x2C80, 0x2CE2, 2, 0x2C81), (0x2CEB, 0x2CED, 2, 0x2CEC), (0x2CF2, 0x2CF2, 1, 0x2CF3),
   (0xA640, 0xA66C, 2, 0xA641), (0xA680, 0xA69A, 2, 0xA681), (0xA722, 0xA72E, 2, 0xA723),
   (0xA732, 0xA76E, 2, 0xA733), (0xA779, 0xA77B, 2, 0xA77A), (0xA77D, 0xA77D, 1, 0x1D79),
   (0xA77E, 0xA786, 2, 0xA77F), (0xA78B, 0xA78B, 1, 0xA78C), (0xA78D, 0xA78D, 1, 0x265),
   (0xA790, 0xA792, 2, 0xA791), (0xA796, 0xA7A8, 2, 0xA797), (0xA7AA, 0xA7AA, 1, 0x266),
   (0xA7AB, 0xA7AB, 1, 0x25C), (0xA7AC, 0xA7AC, 1, 0x261), (0xA7AD, 0xA7AD, 1, 0x26C),
   (0xA7AE, 0xA7AE, 1, 0x26A), (0xA7B0, 0xA7B0, 1, 0x29E), (0xA7B1, 0xA7B1, 1, 0x287),
   (0xA7B2, 0xA7B2, 1, 0x29D), (0xA7B3, 0xA7B3, 1, 0xAB53), (0xA7B4, 0xA7C2, 2, 0xA7B5),
   (0xA7C4, 0xA7C4, 1, 0xA794), (0xA7C5, 0xA7C5, 1, 0x282), (0xA7C6, 0xA7C6, 1, 0x1D8E),
   (0xA7C7, 0xA7C9, 2, 0xA7C8), (0xA7D0, 0xA7D0, 1, 0xA7D1), (0xA7D6, 0xA7D8, 2, 0xA7D7),
   (0xA7F5, 0xA7F5, 1, 0xA7F6), (0xFF21, 0xFF3A, 1, 0xFF41), (0x10400, 0x10427, 1, 0x10428),
   (0x104B0, 0x104D3, 1, 0x104D8), (0x10570, 0x1057A, 1, 0x10597),
   (0x1057C, 0x1058A, 1, 0x105A3), (0x1058C, 0x10592, 1, 0x105B3),
   (0x10594, 0x10595, 1, 0x105BB), (0x10C80, 0x10CB2, 1, 0x10CC0),
   (0x118A0, 0x118BF, 1, 0x118C0), (0x16E40, 0x16E5F, 1, 0x16E60),
   (0x1E900, 0x1E921, 1, 0x1E922)]

/-- The code points with the property `Cased` (`DerivedCoreProperties.txt`), as sorted
ranges `(first, last)`. -/
def casedRanges : List (Nat × Nat) :=
  [(0x41, 0x5A), (0x61, 0x7A), (0xAA, 0xAA), (0xB5, 0xB5), (0xBA, 0xBA), (0xC0, 0xD6),
   (0xD8, 0xF6), (0xF8, 0x1BA), (0x1BC, 0x1BF), (0x1C4, 0x293), (0x295, 0x2B8), (0x2C0, 0x2C1),
   (0x2E0, 0x2E4), (0x345, 0x345), (0x370, 0x373), (0x376, 0x377), (0x37A, 0x37D),
   (0x37F, 0x37F), (0x386, 0x386), (0x388, 0x38A), (0x38C, 0x38C), (0x38E, 0x3A1),
   (0x3A3, 0x3F5), (0x3F7, 0x481), (0x48A, 0x52F), (0x531, 0x556), (0x560, 0x588),
   (0x10A0, 0x10C5), (0x10C7, 0x10C7), (0x10CD, 0x10CD), (0x10D0, 0x10FA), (0x10FD, 0x10FF),
   (0x13A0, 0x13F5), (0x13F8, 0x13FD), (0x1C80, 0x1C88), (0x1C90, 0x1CBA), (0x1CBD, 0x1CBF),
   (0x1D00, 0x1DBF), (0x1E00, 0x1F15), (0x1F18, 0x1F1D), (0x1F20, 0x1F45), (0x1F48, 0x1F4D),
   (0x1F50, 0x1F57), (0x1F59, 0x1F59), (0x1F5B, 0x1F5B), (0x1F5D, 0x1F5D), (0x1F5F, 0x1F7D),
   (0x1F80, 0x1FB4), (0x1FB6, 0x1FBC), (0x1FBE, 0x1FBE), (0x1FC2, 0x1FC4), (0x1FC6, 0x1FCC),
   (0x1FD0, 0x1FD3), (0x1FD6, 0x1FDB), (0x1FE0, 0x1FEC), (0x1FF2, 0x1FF4), (0x1FF6, 0x1FFC),
   (0x2071, 0x2071), (0x207F, 0x207F), (0x2090, 0x209C), (0x2102, 0x2102), (0x2107, 0x2107),
   (0x210A, 0x2113), (0x2115, 0x2115), (0x2119, 0x211D), (0x2124, 0x2124), (0x2126, 0x2126),
   (0x2128, 0x2128), (0x212A, 0x212D), (0x212F, 0x2134), (0x2139, 0x2139), (0x213C, 0x213F),
   (0x2145, 0x2149), (0x214E, 0x214E), (0x2160, 0x217F), (0x2183, 0x2184), (0x24B6, 0x24E9),
   (0x2C00, 0x2CE4), (0x2CEB, 0x2CEE), (0x2CF2, 0x2CF3), (0x2D00, 0x2D25), (0x2D27, 0x2D27),
   (0x2D2D, 0x2D2D), (0xA640, 0xA66D), (0xA680, 0xA69D), (0xA722, 0xA787), (0xA78B, 0xA78E),
   (0xA790, 0xA7CA), (0xA7D0, 0xA7D1), (0xA7D3, 0xA7D3), (0xA7D5, 0xA7D9), (0xA7F5, 0xA7F6),
   (0xA7F8, 0xA7FA), (0xAB30, 0xAB5A), (0xAB5C, 0xAB68), (0xAB70, 0xABBF), (0xFB00, 0xFB06),
   (0xFB13, 0xFB17), (0xFF21, 0xFF3A), (0xFF41, 0xFF5A), (0x10400, 0x1044F), (0x104B0, 0x104D3),
   (0x104D8, 0x104FB), (0x10570, 0x1057A), (0x1057C, 0x1058A), (0x1058C, 0x10592),
   (0x10594, 0x10595), (0x10597, 0x105A1), (0x105A3, 0x105B1), (0x105B3, 0x105B9),
   (0x105BB, 0x105BC), (0x10780, 0x10780), (0x10783, 0x10785), (0x10787, 0x107B0),
   (0x107B2, 0x107BA), (0x10C80, 0x10CB2), (0x10CC0, 0x10CF2), (0x118A0, 0x118DF),
   (0x16E40, 0x16E7F), (0x1D400, 0x1D454), (0x1D456, 0x1D49C), (0x1D49E, 0x1D49F),
   (0x1D4A2, 0x1D4A2), (0x1D4A5, 0x1D4A6), (0x1D4A9, 0x1D4AC), (0x1D4AE, 0x1D4B9),
   (0x1D4BB, 0x1D4BB), (0x1D4BD, 0x1D4C3), (0x1D4C5, 0x1D505), (0x1D507, 0x1D50A),
   (0x1D50D, 0x1D514), (0x1D516, 0x1D51C), (0x1D51E, 0x1D539), (0x1D53B, 0x1D53E),
   (0x1D540, 0x1D544), (0x1D546, 0x1D546), (0x1D54A, 0x1D550), (0x1D552, 0x1D6A5),
   (0x1D6A8, 0x1D6C0), (0x1D6C2, 0x1D6DA), (0x1D6DC, 0x1D6FA), (0x1D6FC, 0x1D714),
   (0x1D716, 0x1D734), (0x1D736, 0x1D74E), (0x1D750, 0x1D76E), (0x1D770, 0x1D788),
   (0x1D78A, 0x1D7A8), (0x1D7AA, 0x1D7C2), (0x1D7C4, 0x1D7CB), (0x1DF00, 0x1DF09),
   (0x1DF0B, 0x1DF1E), (0x1E900, 0x1E943), (0x1F130, 0x1F149), (0x1F150, 0x1F169),
   (0x1F170, 0x1F189)]

/-- The code points with the property `Case_Ignorable` (`DerivedCoreProperties.txt`), as
sorted ranges `(first, last)`. -/
def caseIgnorableRanges : List (Nat × Nat) :=
  [(0x27, 0x27), (0x2E, 0x2E), (0x3A, 0x3A), (0x5E, 0x5E), (0x60, 0x60), (0xA8, 0xA8),
   (0xAD, 0xAD), (0xAF, 0xAF), (0xB4, 0xB4), (0xB7, 0xB8), (0x2B0, 0x36F), (0x374, 0x375),
   (0x37A, 0x37A), (0x384, 0x385), (0x387, 0x387), (0x483, 0x489), (0x559, 0x559),
   (0x55F, 0x55F), (0x591, 0x5BD), (0x5BF, 0x5BF), (0x5C1, 0x5C2), (0x5C4, 0x5C5),
   (0x5C7, 0x5C7), (0x5F4, 0x5F4), (0x600, 0x605), (0x610, 0x61A), (0x61C, 0x61C),
   (0x640, 0x640), (0x64B, 0x65F), (0x670, 0x670), (0x6D6, 0x6DD), (0x6DF, 0x6E8),
   (0x6EA, 0x6ED), (0x70F, 0x70F), (0x711, 0x711), (0x730, 0x74A), (0x7A6, 0x7B0),
   (0x7EB, 0x7F5), (0x7FA, 0x7FA), (0x7FD, 0x7FD), (0x816, 0x82D), (0x859, 0x85B),
   (0x888, 0x888), (0x890, 0x891), (0x898, 0x89F), (0x8C9, 0x902), (0x93A, 0x93A),
   (0x93C, 0x93C), (0x941, 0x948), (0x94D, 0x94D), (0x951, 0x957), (0x962, 0x963),
   (0x971, 0x971), (0x981, 0x981), (0x9BC, 0x9BC), (0x9C1, 0x9C4), (0x9CD, 0x9CD),
   (0x9E2, 0x9E3), (0x9FE, 0x9FE), (0xA01, 0xA02), (0xA3C, 0xA3C), (0xA41, 0xA42),
   (0xA47, 0xA48), (0xA4B, 0xA4D), (0xA51, 0xA51), (0xA70, 0xA71), (0xA75, 0xA75),
   (0xA81, 0xA82), (0xABC, 0xABC), (0xAC1, 0xAC5), (0xAC7, 0xAC8), (0xACD, 0xACD),
   (0xAE2, 0xAE3), (0xAFA, 0xAFF), (0xB01, 0xB01), (0xB3C, 0xB3C), (0xB3F, 0xB3F),
   (0xB41, 0xB44), (0xB4D, 0xB4D), (0xB55, 0xB56), (0xB62, 0xB63), (0xB82, 0xB82),
   (0xBC0, 0xBC0), (0xBCD, 0xBCD), (0xC00, 0xC00), (0xC04, 0xC04), (0xC3C, 0xC3C),
   (0xC3E, 0xC40), (0xC46, 0xC48), (0xC4A, 0xC4D), (0xC55, 0xC56), (0xC62, 0xC63),
   (0xC81, 0xC81), (0xCBC, 0xCBC), (0xCBF, 0xCBF), (0xCC6, 0xCC6), (0xCCC, 0xCCD),
   (0xCE2, 0xCE3), (0xD00, 0xD01), (0xD3B, 0xD3C), (0xD41, 0xD44), (0xD4D, 0xD4D),
   (0xD62, 0xD63), (0xD81, 0xD81), (0xDCA, 0xDCA), (0xDD2, 0xDD4), (0xDD6, 0xDD6),
   (0xE31, 0xE31), (0xE34, 0xE3A), (0xE46, 0xE4E), (0xEB1, 0xEB1), (0xEB4, 0xEBC),
   (0xEC6, 0xEC6), (0xEC8, 0xECD), (0xF18, 0xF19), (0xF35, 0xF35), (0xF37, 0xF37),
   (0xF39, 0xF39), (0xF71, 0xF7E), (0xF80, 0xF84), (0xF86, 0xF87), (0xF8D, 0xF97),
   (0xF99, 0xFBC), (0xFC6, 0xFC6), (0x102D, 0x1030), (0x1032, 0x1037), (0x1039, 0x103A),
   (0x103D, 0x103E), (0x1058, 0x1059), (0x105E, 0x1060), (0x1071, 0x1074), (0x1082, 0x1082),
   (0x1085, 0x1086), (0x108D, 0x108D), (0x109D, 0x109D), (0x10FC, 0x10FC), (0x135D, 0x135F),
   (0x1712, 0x1714), (0x1732, 0x1733), (0x1752, 0x1753), (0x1772, 0x1773), (0x17B4, 0x17B5),
   (0x17B7, 0x17BD), (0x17C6, 0x17C6), (0x17C9, 0x17D3), (0x17D7, 0x17D7), (0x17DD, 0x17DD),
   (0x180B, 0x180F), (0x1843, 0x1843), (0x1885, 0x1886), (0x18A9, 0x18A9), (0x1920, 0x1922),
   (0x1927, 0x1928), (0x1932, 0x1932), (0x1939, 0x193B), (0x1A17, 0x1A18), (0x1A1B, 0x1A1B),
   (0x1A56, 0x1A56), (0x1A58, 0x1A5E), (0x1A60, 0x1A60), (0x1A62, 0x1A62), (0x1A65, 0x1A6C),
   (0x1A73, 0x1A7C), (0x1A7F, 0x1A7F), (0x1AA7, 0x1AA7), (0x1AB0, 0x1ACE), (0x1B00, 0x1B03),
   (0x1B34, 0x1B34), (0x1B36, 0x1B3A), (0x1B3C, 0x1B3C), (0x1B42, 0x1B42), (0x1B6B, 0x1B73),
   (0x1B80, 0x1B81), (0x1BA2, 0x1BA5), (0x1BA8, 0x1BA9), (0x1BAB, 0x1BAD), (0x1BE6, 0x1BE6),
   (0x1BE8, 0x1BE9), (0x1BED, 0x1BED), (0x1BEF, 0x1BF1), (0x1C2C, 0x1C33), (0x1C36, 0x1C37),
   (0x1C78, 0x1C7D), (0x1CD0, 0x1CD2), (0x1CD4, 0x1CE0), (0x1CE2, 0x1CE8), (0x1CED, 0x1CED),
   (0x1CF4, 0x1CF4), (0x1CF8, 0x1CF9), (0x1D2C, 0x1D6A), (0x1D78, 0x1D78), (0x1D9B, 0x1DFF),
   (0x1FBD, 0x1FBD), (0x1FBF, 0x1FC1), (0x1FCD, 0x1FCF), (0x1FDD, 0x1FDF), (0x1FED, 0x1FEF),
   (0x1FFD, 0x1FFE), (0x200B, 0x200F), (0x2018, 0x2019), (0x2024, 0x2024), (0x2027, 0x2027),
   (0x202A, 0x202E), (0x2060, 0x2064), (0x2066, 0x206F), (0x2071, 0x2071), (0x207F, 0x207F),
   (0x2090, 0x209C), (0x20D0, 0x20F0), (0x2C7C, 0x2C7D), (0x2CEF, 0x2CF1), (0x2D6F, 0x2D6F),
   (0x2D7F, 0x2D7F), (0x2DE0, 0x2DFF), (0x2E2F, 0x2E2F), (0x3005, 0x3005), (0x302A, 0x302D),
   (0x3031, 0x3035), (0x303B, 0x303B), (0x3099, 0x309E), (0x30FC, 0x30FE), (0xA015, 0xA015),
   (0xA4F8, 0xA4FD), (0xA60C, 0xA60C), (0xA66F, 0xA672), (0xA674, 0xA67D), (0xA67F, 0xA67F),
   (0xA69C, 0xA69F), (0xA6F0, 0xA6F1), (0xA700, 0xA721), (0xA770, 0xA770), (0xA788, 0xA78A),
   (0xA7F2, 0xA7F4), (0xA7F8, 0xA7F9), (0xA802, 0xA802), (0xA806, 0xA806), (0xA80B, 0xA80B),
   (0xA825, 0xA826), (0xA82C, 0xA82C), (0xA8C4, 0xA8C5), (0xA8E0, 0xA8F1), (0xA8FF, 0xA8FF),
   (0xA926, 0xA92D), (0xA947, 0xA951), (0xA980, 0xA982), (0xA9B3, 0xA9B3), (0xA9B6, 0xA9B9),
   (0xA9BC, 0xA9BD), (0xA9CF, 0xA9CF), (0xA9E5, 0xA9E6), (0xAA29, 0xAA2E), (0xAA31, 0xAA32),
   (0xAA35, 0xAA36), (0xAA43, 0xAA43), (0xAA4C, 0xAA4C), (0xAA70, 0xAA70), (0xAA7C, 0xAA7C),
   (0xAAB0, 0xAAB0), (0xAAB2, 0xAAB4), (0xAAB7, 0xAAB8), (0xAABE, 0xAABF), (0xAAC1, 0xAAC1),
   (0xAADD, 0xAADD), (0xAAEC, 0xAAED), (0xAAF3, 0xAAF4), (0xAAF6, 0xAAF6), (0xAB5B, 0xAB5F),
   (0xAB69, 0xAB6B), (0xABE5, 0xABE5), (0xABE8, 0xABE8), (0xABED, 0xABED), (0xFB1E, 0xFB1E),
   (0xFBB2, 0xFBC2), (0xFE00, 0xFE0F), (0xFE13, 0xFE13), (0xFE20, 0xFE2F), (0xFE52, 0xFE52),
   (0xFE55, 0xFE55), (0xFEFF, 0xFEFF), (0xFF07, 0xFF07), (0xFF0E, 0xFF0E), (0xFF1A, 0xFF1A),
   (0xFF3E, 0xFF3E), (0xFF40, 0xFF40), (0xFF70, 0xFF70), (0xFF9E, 0xFF9F), (0xFFE3, 0xFFE3),
   (0xFFF9, 0xFFFB), (0x101FD, 0x101FD), (0x102E0, 0x102E0), (0x10376, 0x1037A),
   (0x10780, 0x10785), (0x10787, 0x107B0), (0x107B2, 0x107BA), (0x10A01, 0x10A03),
   (0x10A05, 0x10A06), (0x10A0C, 0x10A0F), (0x10A38, 0x10A3A), (0x10A3F, 0x10A3F),
   (0x10AE5, 0x10AE6), (0x10D24, 0x10D27), (0x10EAB, 0x10EAC), (0x10F46, 0x10F50),
   (0x10F82, 0x10F85), (0x11001, 0x11001), (0x11038, 0x11046), (0x11070, 0x11070),
   (0x11073, 0x11074), (0x1107F, 0x11081), (0x110B3, 0x110B6), (0x110B9, 0x110BA),
   (0x110BD, 0x110BD), (0x110C2, 0x110C2), (0x110CD, 0x110CD), (0x11100, 0x11102),
   (0x11127, 0x1112B), (0x1112D, 0x11134), (0x11173, 0x11173), (0x11180, 0x11181),
   (0x111B6, 0x111BE), (0x111C9, 0x111CC), (0x111CF, 0x111CF), (0x1122F, 0x11231),
   (0x11234, 0x11234), (0x11236, 0x11237), (0x1123E, 0x1123E), (0x112DF, 0x112DF),
   (0x112E3, 0x112EA), (0x11300, 0x11301), (0x1133B, 0x1133C), (0x11340, 0x11340),
   (0x11366, 0x1136C), (0x11370, 0x11374), (0x11438, 0x1143F), (0x11442, 0x11444),
   (0x11446, 0x11446), (0x1145E, 0x1145E), (0x114B3, 0x114B8), (0x114BA, 0x114BA),
   (0x114BF, 0x114C0), (0x114C2, 0x114C3), (0x115B2, 0x115B5), (0x115BC, 0x115BD),
   (0x115BF, 0x115C0), (0x115DC, 0x115DD), (0x11633, 0x1163A), (0x1163D, 0x1163D),
   (0x1163F, 0x11640), (0x116AB, 0x116AB), (0x116AD, 0x116AD), (0x116B0, 0x116B5),
   (0x116B7, 0x116B7), (0x1171D, 0x1171F), (0x11722, 0x11725), (0x11727, 0x1172B),
   (0x1182F, 0x11837), (0x11839, 0x1183A), (0x1193B, 0x1193C), (0x1193E, 0x1193E),
   (0x11943, 0x11943), (0x119D4, 0x119D7), (0x119DA, 0x119DB), (0x119E0, 0x119E0),
   (0x11A01, 0x11A0A), (0x11A33, 0x11A38), (0x11A3B, 0x11A3E), (0x11A47, 0x11A47),
   (0x11A51, 0x11A56), (0x11A59, 0x11A5B), (0x11A8A, 0x11A96), (0x11A98, 0x11A99),
   (0x11C30, 0x11C36), (0x11C38, 0x11C3D), (0x11C3F, 0x11C3F), (0x11C92, 0x11CA7),
   (0x11CAA, 0x11CB0), (0x11CB2, 0x11CB3), (0x11CB5, 0x11CB6), (0x11D31, 0x11D36),
   (0x11D3A, 0x11D3A), (0x11D3C, 0x11D3D), (0x11D3F, 0x11D45), (0x11D47, 0x11D47),
   (0x11D90, 0x11D91), (0x11D95, 0x11D95), (0x11D97, 0x11D97), (0x11EF3, 0x11EF4),
   (0x13430, 0x13438), (0x16AF0, 0x16AF4), (0x16B30, 0x16B36), (0x16B40, 0x16B43),
   (0x16F4F, 0x16F4F), (0x16F8F, 0x16F9F), (0x16FE0, 0x16FE1), (0x16FE3, 0x16FE4),
   (0x1AFF0, 0x1AFF3), (0x1AFF5, 0x1AFFB), (0x1AFFD, 0x1AFFE), (0x1BC9D, 0x1BC9E),
   (0x1BCA0, 0x1BCA3), (0x1CF00, 0x1CF2D), (0x1CF30, 0x1CF46), (0x1D167, 0x1D169),
   (0x1D173, 0x1D182), (0x1D185, 0x1D18B), (0x1D1AA, 0x1D1AD), (0x1D242, 0x1D244),
   (0x1DA00, 0x1DA36), (0x1DA3B, 0x1DA6C), (0x1DA75, 0x1DA75), (0x1DA84, 0x1DA84),
   (0x1DA9B, 0x1DA9F), (0x1DAA1, 0x1DAAF), (0x1E000, 0x1E006), (0x1E008, 0x1E018),
   (0x1E01B, 0x1E021), (0x1E023, 0x1E024), (0x1E026, 0x1E02A), (0x1E130, 0x1E13D),
   (0x1E2AE, 0x1E2AE), (0x1E2EC, 0x1E2EF), (0x1E8D0, 0x1E8D6), (0x1E944, 0x1E94B),
   (0x1F3FB, 0x1F3FF), (0xE0001, 0xE0001), (0xE0020, 0xE007F), (0xE0100, 0xE01EF)]

/-- The lowercase mapping of a code point, looked up in sorted segments. -/
def lowerCodeIn : List (Nat × Nat × Nat × Nat) → Nat → Nat
  | [], n => n
  | (first, last, stride, target) :: rest, n =>
    if n < first then n
    else if n ≤ last then (if (n - first) % stride = 0 then target + (n - first) else n)
    else lowerCodeIn rest n

/-- The simple lowercase mapping of a code point. -/
def lowerCode (n : Nat) : Nat :=
  lowerCodeIn lowercaseSegments n

/-- Whether a code point lies in one of the sorted ranges. -/
def inRanges : List (Nat × Nat) → Nat → Bool
  | [], _ => false
  | (first, last) :: rest, n =>
    if n < first then false else if n ≤ last then true else inRanges rest n

/-- The property `Cased`. -/
def isCased (c : Char) : Bool :=
  inRanges casedRanges c.toNat

/-- The property `Case_Ignorable`. -/
def isCaseIgnorable (c : Char) : Bool :=
  inRanges caseIgnorableRanges c.toNat

/-- Whether, in the direction of the list, the nearest character that is not case-ignorable
exists and is cased. -/
def casedAfterIgnorable (cs : List Char) : Bool :=
  match cs.dropWhile isCaseIgnorable with
  | [] => false
  | c :: _ => isCased c

/-- The condition `Final_Sigma` of `SpecialCasing.txt`: a cased letter, then case-ignorable
characters, stand before, and no case-ignorable characters then a cased letter follow.
`before` lists the preceding characters nearest first. -/
def isFinalSigma (before following : List Char) : Bool :=
  casedAfterIgnorable before && !casedAfterIgnorable following

/-- The lowercase of one character in its context: U+03A3 becomes U+03C2 in the final-sigma
context and U+03C3 otherwise, U+0130 becomes U+0069 U+0307, every other character takes its
simple lowercase mapping. -/
def lowerChar (before : List Char) (c : Char) (following : List Char) : List Char :=
  if c.toNat = 0x3A3 then
    [if isFinalSigma before following then Char.ofNat 0x3C2 else Char.ofNat 0x3C3]
  else if c.toNat = 0x130 then
    [Char.ofNat 0x69, Char.ofNat 0x307]
  else
    [Char.ofNat (lowerCode c.toNat)]

/-- The Unicode default lowercase conversion of a character list; `before` lists the
characters already passed, nearest first. -/
def lowerChars : List Char → List Char → List Char
  | _, [] => []
  | before, c :: following => lowerChar before c following ++ lowerChars (c :: before) following

/-- The method `String.prototype.toLowerCase`: the Unicode default case conversion, with the
language-insensitive mappings of `SpecialCasing.txt`. -/
def toLowerCase (s : String) : String :=
  String.mk (lowerChars [] s.data)

/-! ## Substring search -/

/-- Whether `t` starts the character list `s`. -/
def startsWithChars : List Char → List Char → Bool
  | _, [] => true
  | [], _ :: _ => false
  | a :: s, b :: t => a == b && startsWithChars s t

/-- Whether `t` occurs in `s` at some position. -/
def includesChars : List Char → List Char → Bool
  | [], t => t.isEmpty
  | a :: s, t => startsWithChars (a :: s) t || includesChars s t

/-- The method `String.prototype.includes`: `t` is a substring of `s`. -/
def includes (s t : String) : Bool :=
  includesChars s.data t.data

/-! ## Array primitives -/

/-- `Array.prototype.findIndex` scanning from position `i`: the position of the first element
satisfying `p`, or `-1`. -/
def findIndexFrom {α : Type} (p : α → Bool) : List α → Nat → Int
  | [], _ => -1
  | x :: xs, i => if p x then (i : Int) else findIndexFrom p xs (i + 1)

/-- `Array.prototype.findIndex`. -/
def findIndex {α : Type} (p : α → Bool) (self : List α) : Int :=
  findIndexFrom p self 0

/-- `Array.prototype.filter` with a callback that also reads the element's index,
scanning from position `i`. -/
def filterIdxFrom {α : Type} (f : α → Nat → Bool) : List α → Nat → List α
  | [], _ => []
  | x :: xs, i => if f x i then x :: filterIdxFrom f xs (i + 1) else filterIdxFrom f xs (i + 1)

/-- `Array.prototype.filter` with a callback `(element, index) => ...`. -/
def filterIdx {α : Type} (f : α → Nat → Bool) (self : List α) : List α :=
  filterIdxFrom f self 0

/-! ## Contacts and the derived lists (`GroupCreation.jsx`, lines 25-40) -/

/-- A contact identity: a number or a string, compared with `===`. -/
inductive ContactId where
  | num (n : Int)
  | str (s : String)
  deriving DecidableEq, Repr

/-- An entry of the mixed contact list handed to the wizard. -/
structure Contact where
  id : ContactId
  name : String
  isDocument : Bool := false
  isGroup : Bool := false
  avatar : Option String := none
  isOnline : Bool := false
  lastMessage : String := ""
  deriving DecidableEq, Repr

/-- The memo `availableContacts`: documents and groups are dropped, then an entry is kept
when its index is the index of the first entry with its id. -/
def availableContacts (contacts : List Contact) : List Contact :=
  let filtered := contacts.filter (fun contact => !contact.isDocument && !contact.isGroup)
  let uniqueContacts := filterIdx
    (fun contact index => decide ((index : Int) = findIndex (fun c => c.id == contact.id) filtered))
    filtered
  uniqueContacts

/-- The memo `filteredContacts`: the available contacts whose lower-cased name includes the
lower-cased search term. -/
def filteredContacts (contacts : List Contact) (searchTerm : String) : List Contact :=
  (availableContacts contacts).filter
    (fun contact => includes (toLowerCase contact.name) (toLowerCase searchTerm))

/-- The contact list of the duplicate-id example: ids 1, 2, 1, all named "Ann". -/
def annContacts : List Contact :=
  [{ id := .num 1, name := "Ann" }, { id := .num 2, name := "Ann" }, { id := .num 1, name := "Ann" }]

/-! ## Workflow state and event handlers (`GroupCreation.jsx`, lines 19-23 and 42-82) -/

/-- The component state: the five `useState` cells. -/
structure State where
  searchTerm : String := ""
  selectedContacts : List Contact := []
  groupName : String := ""
  groupDescription : String := ""
  step : Nat := 1
  deriving DecidableEq, Repr

/-- The state of a freshly mounted wizard: step 1, nothing selected, all texts empty. -/
def initialState : State := {}

/-- The updater `handleContactToggle` passes to `setSelectedContacts`: a contact whose id is
already selected is filtered out, any other contact is appended. -/
def toggleContact (prev : List Contact) (contact : Contact) : List Contact :=
  let isSelected := prev.any (fun c => c.id == contact.id)
  if isSelected then prev.filter (fun c => c.id != contact.id) else prev ++ [contact]

/-- The updater `removeSelectedContact` passes to `setSelectedContacts`. -/
def removeContact (prev : List Contact) (contactId : ContactId) : List Contact :=
  prev.filter (fun c => c.id != contactId)

/-- The handler `handleContactToggle`. -/
def handleContactToggle (s : State) (contact : Contact) : State :=
  { s with selectedContacts := toggleContact s.selectedContacts contact }

/-- The handler `removeSelectedContact`. -/
def removeSelectedContact (s : State) (contactId : ContactId) : State :=
  { s with selectedContacts := removeContact s.selectedContacts contactId }

/-- The handler `handleNext`: step 2 is entered only with a non-empty selection. -/
def handleNext (s : State) : State :=
  if s.selectedContacts.length > 0 then { s with step := 2 } else s

/-- The handler `handleBack`. -/
def handleBack (s : State) : State :=
  { s with step := 1 }

/-- The search box's `onChange`: `setSearchTerm(e.target.value)`. -/
def setSearchTerm (s : State) (value : String) : State :=
  { s with searchTerm := value }

/-- The name input's `onChange`: `setGroupName(e.target.value)`. -/
def setGroupName (s : State) (value : String) : State :=
  { s with groupName := value }

/-- The description textarea's `onChange`: `setGroupDescription(e.target.value)`. -/
def setGroupDescription (s : State) (value : String) : State :=
  { s with groupDescription := value }

/-- The record `newGroup` built by `handleCreateGroup`. -/
structure Group where
  id : Nat
  name : String
  description : String
  members : List Contact
  isGroup : Bool
  avatar : Option String
  createdBy : String
  createdAt : Nat
  deriving DecidableEq, Repr

/-- A call of one of the two callback props. -/
inductive Effect where
  | onCreateGroup (newGroup : Group)
  | onClose
  deriving DecidableEq, Repr

/-- The handler `handleCreateGroup`, as the list of callback calls it makes, in order.
The argument `now` is the value of `Date.now()`, `date` the value of `new Date()`. -/
def handleCreateGroup (s : State) (now date : Nat) : List Effect :=
  if truthy (trim s.groupName) && decide (s.selectedContacts.length > 0) then
    let newGroup : Group :=
      { id := now
        name := s.groupName
        description := s.groupDescription
        members := s.selectedContacts
        isGroup := true
        avatar := none
        createdBy := "You"
        createdAt := date }
    [Effect.onCreateGroup newGroup, Effect.onClose]
  else
    []

/-! ## The rendered controls: which handler can fire in which state (lines 84-438) -/

/-- A user event on one of the rendered controls. -/
inductive Action where
  /-- The header button while `step === 1` (prop `onClose`). -/
  | close
  /-- The header button otherwise (`handleBack`). -/
  | back
  /-- The "Create Group" button (`handleNext`). -/
  | next
  /-- The "Create" button (`handleCreateGroup`). -/
  | create (now date : Nat)
  /-- Typing in the search box. -/
  | search (value : String)
  /-- The remove button of a selected contact's pill. -/
  | removePill (contact : Contact)
  /-- A click on a row of the contact list. -/
  | toggle (contact : Contact)
  /-- Typing in the group name input. -/
  | editName (value : String)
  /-- Typing in the group description textarea. -/
  | editDescription (value : String)
  deriving DecidableEq, Repr

/-- Whether the control of an action is rendered and active in state `s`.  The contact rows,
the pills, the search box and "Create Group" exist only while `step === 1`; the detail
inputs and "Create" only otherwise.  "Create Group" needs a non-empty selection, "Create" is
`disabled` while the trimmed name is empty, and the two inputs carry `maxLength` 50 and 200,
which bounds the value a user edit can produce. -/
def enabled (contacts : List Contact) (s : State) : Action → Bool
  | .close => s.step == 1
  | .back => s.step != 1
  | .next => s.step == 1 && decide (s.selectedContacts.length > 0)
  | .create _ _ => s.step == 2 && truthy (trim s.groupName)
  | .search _ => s.step == 1
  | .removePill contact =>
      s.step == 1 && decide (s.selectedContacts.length > 0) && decide (contact ∈ s.selectedContacts)
  | .toggle contact => s.step == 1 && decide (contact ∈ filteredContacts contacts s.searchTerm)
  | .editName value => s.step != 1 && decide (jsLength value ≤ 50)
  | .editDescription value => s.step != 1 && decide (jsLength value ≤ 200)

/-- The state after the handler bound to an action has run. -/
def perform (s : State) : Action → State
  | .close => s
  | .back => handleBack s
  | .next => handleNext s
  | .create _ _ => s
  | .search value => setSearchTerm s value
  | .removePill contact => removeSelectedContact s contact.id
  | .toggle contact => handleContactToggle s contact
  | .editName value => setGroupName s value
  | .editDescription value => setGroupDescription s value

/-- The callback calls the handler bound to an action makes. -/
def effects (s : State) : Action → List Effect
  | .close => [Effect.onClose]
  | .create now date => handleCreateGroup s now date
  | _ => []

/-- The states the wizard can be in: the initial one, and every state a rendered, active
control leads to from a reachable one. -/
inductive Reachable (contacts : List Contact) : State → Prop where
  | init : Reachable contacts initialState
  | step {s : State} (a : Action) :
      Reachable contacts s → enabled contacts s a = true → Reachable contacts (perform s a)

/-- A bare sequence of selection-handler calls, with no regard to what is rendered. -/
inductive SelectionCall where
  | toggle (contact : Contact)
  | remove (contactId : ContactId)
  deriving DecidableEq, Repr

/-- The id a selection-handler call is about. -/
def SelectionCall.id : SelectionCall → ContactId
  | .toggle contact => contact.id
  | .remove contactId => contactId

/-- One selection-handler call applied to the selection list. -/
def applyCall (prev : List Contact) : SelectionCall → List Contact
  | .toggle contact => toggleContact prev contact
  | .remove contactId => removeContact prev contactId

/-- The selection after a sequence of handler calls, starting from the empty selection. -/
def runCalls (calls : List SelectionCall) : List Contact :=
  calls.foldl applyCall []

/-- A name or description change-handler call. -/
inductive EditCall where
  | name (value : String)
  | description (value : String)
  deriving DecidableEq, Repr

/-- One change-handler call applied to the state. -/
def applyEdit (s : State) : EditCall → State
  | .name value => setGroupName s value
  | .description value => setGroupDescription s value

/-- The state after a sequence of change-handler calls. -/
def runEdits (s : State) (edits : List EditCall) : State :=
  edits.foldl applyEdit s

/-- Whether the text of a change-handler call respects the `maxLength` attribute of its
input: 50 code units for the name, 200 for the description. -/
def withinMaxLength : EditCall → Bool
  | .name value => decide (jsLength value ≤ 50)
  | .description value => decide (jsLength value ≤ 200)

/-- A text of 51 letters. -/
def text51 : String := String.mk (List.replicate 51 'a')

/-- A text of 201 letters. -/
def text201 : String := String.mk (List.replicate 201 'b')

/-! ## The storage and session gateway (`supabase.js`) -/

/-- A JSON-like payload (a file buffer, a row, a set of updates), kept as text. -/
abbrev Json := String

/-- A value raised by `throw`: `null` / `undefined`, or any other value, of which only the
`message` property matters (`none` when it has none). -/
inductive Thrown where
  | nullish
  | value (message : Option String)
  deriving DecidableEq, Repr

/-- A truthy `error` of a response, or an `Error` object; `message` is its property of that
name (`none` when it has none). -/
structure ServiceError where
  message : Option String
  deriving DecidableEq, Repr

/-- What an awaited call of the external service does: it resolves to `{ data, error }`
(a falsy `error` is `none`), or it throws.  A call resolving to something that cannot be
destructured counts as throwing the resulting `TypeError`. -/
inductive Outcome where
  | resolved (data : Option Json) (error : Option ServiceError)
  | threw (t : Thrown)
  deriving DecidableEq, Repr

/-- The five query chains built by `supabaseDb`. -/
inductive Query where
  /-- The chain `from(table).select('*').eq(column, value).single()`. -/
  | selectSingle (table column value : String)
  /-- The chain `from(table).insert(row).select().single()`. -/
  | insertSingle (table : String) (row : Json)
  /-- The chain `from(table).update(updates).eq(column, value).select().single()`. -/
  | updateSingle (table : String) (updates : Json) (column value : String)
  /-- The chain `from(table).select('*').eq(column, value).order(orderBy, { ascending })`. -/
  | selectOrdered (table column value orderBy : String) (ascending : Bool)
  deriving DecidableEq, Repr

/-- The backend handle: the behaviour of the external service behind `supabase`. -/
structure Client where
  /-- The call `storage.from(bucket).upload(fileName, body, { contentType, upsert })`. -/
  upload : (bucket fileName : String) → (body : Json) → (contentType : String) →
    (upsert : Bool) → Outcome
  /-- The call `storage.from(bucket).getPublicUrl(fileName)`, read as `data.publicUrl`. -/
  getPublicUrl : (bucket fileName : String) → Except Thrown String
  /-- The call `storage.from(bucket).remove(fileNames)`. -/
  remove : (bucket : String) → (fileNames : List String) → Outcome
  /-- An awaited query chain. -/
  query : Query → Outcome

/-- A call made to the external service. -/
inductive Call where
  | upload (bucket fileName : String) (body : Json) (contentType : String) (upsert : Bool)
  | getPublicUrl (bucket fileName : String)
  | remove (bucket : String) (fileNames : List String)
  | query (q : Query)
  deriving DecidableEq, Repr

/-- How a gateway operation ends: its promise resolves to a value, or rejects. -/
inductive Completion (α : Type) where
  | returned (value : α)
  | threw (t : Thrown)
  deriving DecidableEq, Repr

/-- A run of a gateway operation: the service calls it made, in order, and how it ended. -/
structure Run (α : Type) where
  calls : List Call
  result : Completion α
  deriving DecidableEq, Repr

/-- The file object handed to `uploadFileToSupabase`. -/
structure UploadFile where
  originalname : String
  buffer : Json
  mimetype : String
  deriving DecidableEq, Repr

/-- The object `uploadFileToSupabase` resolves to. -/
inductive UploadResult where
  /-- The object `{ success: true, data, publicUrl, fileName }`. -/
  | success (data : Option Json) (publicUrl fileName : String)
  /-- The object `{ success: false, error }`. -/
  | failure (error : Option String)
  deriving DecidableEq, Repr

/-- The object `deleteFileFromSupabase` resolves to. -/
inductive DeleteResult where
  /-- The object `{ success: true }`. -/
  | success
  /-- The object `{ success: false, error }`. -/
  | failure (error : Option String)
  deriving DecidableEq, Repr

/-- The object `{ data, error }` a `supabaseDb` operation resolves to. -/
structure DbResult where
  data : Option Json
  error : Option ServiceError
  deriving DecidableEq, Repr

/-- The message of every "no backend handle" failure. -/
def notInitialized : String := "Supabase client not initialized"

/-- The `TypeError` raised when `error.message` is read from `null` or `undefined`.  Its
wording is the engine's and names the value read; the text for `undefined` stands here for
both. -/
def messageOfNullish : Thrown :=
  .value (some "Cannot read properties of undefined (reading 'message')")

/-- `String.prototype.split` with a one-character separator, on character lists. -/
def splitChars (sep : Char) : List Char → List (List Char)
  | [] => [[]]
  | c :: cs =>
    if c = sep then [] :: splitChars sep cs
    else
      match splitChars sep cs with
      | [] => [[c]]
      | piece :: pieces => (c :: piece) :: pieces

/-- The expression `file.originalname.split('.').pop()`: the last piece. -/
def fileExtension (originalname : String) : String :=
  String.mk ((splitChars '.' originalname.data).getLastD [])

/-- The expression `Math.random().toString(36).substring(7)`, given the base-36 text
`random36` of the random number. -/
def randomSuffix (random36 : String) : String :=
  String.mk (random36.data.drop 7)

/-- The template `${path}${Date.now()}_${suffix}.${fileExt}` of `uploadFileToSupabase`. -/
def generatedFileName (path : String) (now : Nat) (random36 : String) (originalname : String) :
    String :=
  path ++ toString now ++ "_" ++ randomSuffix random36 ++ "." ++ fileExtension originalname

/-- The `catch` block of `uploadFileToSupabase`: `{ success: false, error: error.message }`. -/
def uploadCatch (calls : List Call) : Thrown → Run UploadResult
  | .nullish => ⟨calls, .threw messageOfNullish⟩
  | .value message => ⟨calls, .returned (.failure message)⟩

/-- The `catch` block of `deleteFileFromSupabase`. -/
def deleteCatch (calls : List Call) : Thrown → Run DeleteResult
  | .nullish => ⟨calls, .threw messageOfNullish⟩
  | .value message => ⟨calls, .returned (.failure message)⟩

/-- The function `uploadFileToSupabase(file, bucket = 'documents', path = '')`; an omitted
argument is `none`, `now` is the value of `Date.now()` and `random36` that of
`Math.random().toString(36)`. -/
def uploadFileToSupabase (supabase : Option Client) (file : UploadFile)
    (bucket : Option String) (path : Option String) (now : Nat) (random36 : String) :
    Run UploadResult :=
  let bucket := bucket.getD "documents"
  let path := path.getD ""
  match supabase with
  | none => ⟨[], .returned (.failure (some notInitialized))⟩
  | some sb =>
    let fileName := generatedFileName path now random36 file.originalname
    let uploadCall := Call.upload bucket fileName file.buffer file.mimetype false
    match sb.upload bucket fileName file.buffer file.mimetype false with
    | .threw t => uploadCatch [uploadCall] t
    | .resolved _ (some error) => uploadCatch [uploadCall] (.value error.message)
    | .resolved data none =>
      let urlCall := Call.getPublicUrl bucket fileName
      match sb.getPublicUrl bucket fileName with
      | .error t => uploadCatch [uploadCall, urlCall] t
      | .ok publicUrl => ⟨[uploadCall, urlCall], .returned (.success data publicUrl fileName)⟩

/-- The function `deleteFileFromSupabase(fileName, bucket = 'documents')`; an omitted
`bucket` is `none`. -/
def deleteFileFromSupabase (supabase : Option Client) (fileName : String)
    (bucket : Option String) : Run DeleteResult :=
  let bucket := bucket.getD "documents"
  match supabase with
  | none => ⟨[], .returned (.failure (some notInitialized))⟩
  | some sb =>
    let removeCall := Call.remove bucket [fileName]
    match sb.remove bucket [fileName] with
    | .threw t => deleteCatch [removeCall] t
    | .resolved _ (some error) => deleteCatch [removeCall] (.value error.message)
    | .resolved _ none => ⟨[removeCall], .returned .success⟩

/-- The common body of the `supabaseDb` operations: without a handle the failure object,
otherwise the awaited query with its `{ data, error }` handed back; nothing is caught. -/
def runQuery (supabase : Option Client) (q : Query) : Run DbResult :=
  match supabase with
  | none => ⟨[], .returned { data := none, error := some ⟨some notInitialized⟩ }⟩
  | some sb =>
    match sb.query q with
    | .resolved data error => ⟨[Call.query q], .returned { data := data, error := error }⟩
    | .threw t => ⟨[Call.query q], .threw t⟩

/-- The operation `supabaseDb.getAISession(sessionId)`. -/
def supabaseDb.getAISession (supabase : Option Client) (sessionId : String) : Run DbResult :=
  runQuery supabase (.selectSingle "ai_sessions" "session_id" sessionId)

/-- The operation `supabaseDb.createAISession(sessionData)`. -/
def supabaseDb.createAISession (supabase : Option Client) (sessionData : Json) : Run DbResult :=
  runQuery supabase (.insertSingle "ai_sessions" sessionData)

/-- The operation `supabaseDb.updateAISession(sessionId, updates)`. -/
def supabaseDb.updateAISession (supabase : Option Client) (sessionId : String) (updates : Json) :
    Run DbResult :=
  runQuery supabase (.updateSingle "ai_sessions" updates "session_id" sessionId)

/-- The operation `supabaseDb.createProcessedDocument(docData)`. -/
def supabaseDb.createProcessedDocument (supabase : Option Client) (docData : Json) :
    Run DbResult :=
  runQuery supabase (.insertSingle "processed_documents" docData)

/-- The operation `supabaseDb.getProcessedDocuments(sessionId)`. -/
def supabaseDb.getProcessedDocuments (supabase : Option Client) (sessionId : String) :
    Run DbResult :=
  runQuery supabase (.selectOrdered "processed_documents" "session_id" sessionId "uploaded_at" false)

/-- A backend whose storage reports errors and whose queries report "not found". -/
def failingClient : Client where
  upload := fun _ _ _ _ _ => .resolved none (some ⟨some "Bucket not found"⟩)
  getPublicUrl := fun _ fileName => .ok ("https://storage.example/" ++ fileName)
  remove := fun _ _ => .threw (.value (some "fetch failed"))
  query := fun _ => .resolved none (some ⟨some "JSON object requested, no rows returned"⟩)

/-- A backend every call of which throws an error with the message "fetch failed". -/
def throwingClient : Client where
  upload := fun _ _ _ _ _ => .threw (.value (some "fetch failed"))
  getPublicUrl := fun _ _ => .error (.value (some "fetch failed"))
  remove := fun _ _ => .threw (.value (some "fetch failed"))
  query := fun _ => .threw (.value (some "fetch failed"))

/-- A file as the upload route receives it. -/
def sampleFile : UploadFile :=
  { originalname := "report.final.pdf", buffer := "%PDF", mimetype := "application/pdf" }

/-! ## Specification devices and sample data -/

/-- Ids of a contact list kept at their first occurrence; `seen` are the ids before the list. -/
def keepFirst (seen : List ContactId) : List Contact → List Contact
  | [] => []
  | x :: xs =>
    if x.id ∈ seen then keepFirst (seen ++ [x.id]) xs else x :: keepFirst (seen ++ [x.id]) xs

/-- A contact list with one contact whose name has an accented capital letter. -/
def emileContacts : List Contact :=
  [{ id := .num 1, name := "ÉMILE" }]

/-- A contact list with one contact whose name is in Greek capitals and ends in a sigma. -/
def odosContacts : List Contact :=
  [{ id := .num 1, name := "ΟΔΟΣ" }]

/-- A state with two selected contacts and a name made of blanks only. -/
def blankNameState : State :=
  { selectedContacts := [{ id := .num 1, name := "Ann" }, { id := .num 2, name := "Bob" }]
    groupName := "  \t "
    step := 2 }

/-- A state with one selected contact and the name "Trip". -/
def tripState : State :=
  { selectedContacts := [{ id := .num 1, name := "Ann" }]
    groupName := " Trip "
    groupDescription := "hiking"
    step := 2 }

/-- A contact list with two individual contacts and one group. -/
def sampleContacts : List Contact :=
  [{ id := .num 1, name := "Ann" }, { id := .num 2, name := "Bob" },
   { id := .num 3, name := "Team", isGroup := true }]

/-- Call number `k` of `calls` is a toggle of exactly the contact `c`, and no later call
is about the id of `c`: the entry `c` was added by call `k` and that is the most recent time
its id was added. -/
def AddedAt (calls : List SelectionCall) (k : Nat) (c : Contact) : Prop :=
  calls[k]? = some (.toggle c) ∧
  ∀ j call, k < j → calls[j]? = some call → call.id ≠ c.id

/-! ## Auxiliary facts about `findIndex` and the index filter -/

theorem findIndexFrom_skip {α : Type} (p : α → Bool) (pre rest : List α) (k : Nat)
    (h : ∀ y ∈ pre, p y = false) :
    findIndexFrom p (pre ++ rest) k = findIndexFrom p rest (k + pre.length) := by
  induction pre generalizing k with
  | nil => simp
  | cons y ys ih =>
    have hy : p y = false := h y (List.mem_cons_self _ _)
    have hys : ∀ z ∈ ys, p z = false := fun z hz => h z (List.mem_cons_of_mem _ hz)
    rw [List.cons_append, findIndexFrom, if_neg (by simp [hy]), ih (k + 1) hys, List.length_cons]
    congr 1
    omega

theorem findIndexFrom_hit {α : Type} (p : α → Bool) (pre rest : List α) (k : Nat)
    (h : ∃ y ∈ pre, p y = true) :
    findIndexFrom p (pre ++ rest) k < ((k + pre.length : Nat) : Int) := by
  induction pre generalizing k with
  | nil => simp at h
  | cons y ys ih =>
    by_cases hy : p y = true
    · rw [List.cons_append, findIndexFrom, if_pos hy, List.length_cons]
      omega
    · have hys : ∃ z ∈ ys, p z = true := by
        obtain ⟨z, hz, hpz⟩ := h
        rcases List.mem_cons.mp hz with rfl | hz
        · exact absurd hpz hy
        · exact ⟨z, hz, hpz⟩
      rw [List.cons_append, findIndexFrom, if_neg hy, List.length_cons]
      have := ih (k + 1) hys
      have e : k + 1 + ys.length = k + (ys.length + 1) := by omega
      rw [e] at this
      exact this

theorem findIndex_eq_length_iff {α : Type} (p : α → Bool) (pre post : List α) (x : α)
    (hx : p x = true) :
    ((pre.length : Nat) : Int) = findIndex p (pre ++ x :: post) ↔ ∀ y ∈ pre, p y = false := by
  constructor
  · intro h y hy
    by_contra hne
    have hp : p y = true := by simpa using hne
    have := findIndexFrom_hit p pre (x :: post) 0 ⟨y, hy, hp⟩
    unfold findIndex at h
    rw [← h] at this
    simp at this
  · intro h
    unfold findIndex
    rw [findIndexFrom_skip p pre (x :: post) 0 h]
    simp [findIndexFrom, hx]

theorem filterIdxFrom_firstIndex (pre rest : List Contact) :
    filterIdxFrom
      (fun contact index =>
        decide ((index : Int) = findIndex (fun c => c.id == contact.id) (pre ++ rest)))
      rest pre.length = keepFirst (pre.map (·.id)) rest := by
  induction rest generalizing pre with
  | nil => simp [filterIdxFrom, keepFirst]
  | cons x xs ih =>
    have key := findIndex_eq_length_iff (fun c => c.id == x.id) pre xs x (by simp)
    have hrec := ih (pre ++ [x])
    simp only [List.append_assoc, List.singleton_append, List.length_append, List.length_singleton,
      List.map_append, List.map_cons, List.map_nil] at hrec
    by_cases hmem : x.id ∈ pre.map (·.id)
    · have hno : ¬ (((pre.length : Nat) : Int) = findIndex (fun c => c.id == x.id) (pre ++ x :: xs)) := by
        rw [key]
        intro hall
        obtain ⟨y, hy, hyx⟩ := List.mem_map.mp hmem
        have := hall y hy
        simp [hyx] at this
      simp only [filterIdxFrom, keepFirst, hmem, if_true, hno, decide_False, Bool.false_eq_true,
        if_false]
      exact hrec
    · have hyes : ((pre.length : Nat) : Int) = findIndex (fun c => c.id == x.id) (pre ++ x :: xs) := by
        rw [key]
        intro y hy
        have : y.id ≠ x.id := fun e => hmem (List.mem_map.mpr ⟨y, hy, e⟩)
        simpa using this
      simp only [filterIdxFrom, keepFirst, hmem, if_false, hyes, decide_True, if_true]
      rw [hrec]

theorem availableContacts_eq_keepFirst (contacts : List Contact) :
    availableContacts contacts =
      keepFirst [] (contacts.filter (fun contact => !contact.isDocument && !contact.isGroup)) := by
  have := filterIdxFrom_firstIndex []
    (contacts.filter (fun contact => !contact.isDocument && !contact.isGroup))
  simpa [availableContacts, filterIdx] using this

theorem keepFirst_mem (seen : List ContactId) (l : List Contact) :
    ∀ c ∈ keepFirst seen l, c ∈ l ∧ c.id ∉ seen := by
  induction l generalizing seen with
  | nil => simp [keepFirst]
  | cons x xs ih =>
    intro c hc
    have hrest : ∀ d ∈ keepFirst (seen ++ [x.id]) xs, d ∈ x :: xs ∧ d.id ∉ seen := by
      intro d hd
      obtain ⟨h1, h2⟩ := ih (seen ++ [x.id]) d hd
      exact ⟨List.mem_cons_of_mem _ h1, fun h => h2 (List.mem_append_left _ h)⟩
    by_cases hmem : x.id ∈ seen
    · simp only [keepFirst, hmem, if_true] at hc
      exact hrest c hc
    · simp only [keepFirst, hmem, if_false] at hc
      rcases List.mem_cons.mp hc with rfl | hc
      · exact ⟨List.mem_cons_self _ _, hmem⟩
      · exact hrest c hc

theorem keepFirst_pairwise (seen : List ContactId) (l : List Contact) :
    (keepFirst seen l).Pairwise (fun a b => a.id ≠ b.id) := by
  induction l generalizing seen with
  | nil => simp [keepFirst]
  | cons x xs ih =>
    by_cases hmem : x.id ∈ seen
    · simp only [keepFirst, hmem, if_true]
      exact ih _
    · simp only [keepFirst, hmem, if_false]
      refine List.Pairwise.cons ?_ (ih _)
      intro b hb heq
      have := (keepFirst_mem (seen ++ [x.id]) xs b hb).2
      exact this (by simp [heq])

/-! ## The derived selectable list -/

/-- C1: for every contact list, `availableContacts` holds no contact whose `isDocument` or
`isGroup` flag is set, and no two of its entries have the same id. -/
theorem availableContacts_clean_and_distinct (contacts : List Contact) :
    (∀ c ∈ availableContacts contacts, c.isDocument = false ∧ c.isGroup = false) ∧
    (availableContacts contacts).Pairwise (fun a b => a.id ≠ b.id) := by
  rw [availableContacts_eq_keepFirst]
  refine ⟨?_, keepFirst_pairwise _ _⟩
  intro c hc
  have hmem := (keepFirst_mem [] _ c hc).1
  have := (List.mem_filter.mp hmem).2
  simpa using this

/-- C2 as stated fails: for the contacts with ids 1, 2, 1 (all named "Ann") and an empty
search text the selectable list does not have exactly one entry. -/
theorem annContacts_selectable_not_single :
    (filteredContacts annContacts "").length ≠ 1 ∧
    (availableContacts annContacts).length ≠ 1 := by
  decide

/-- C2, amended: for the contacts with ids 1, 2, 1 (all named "Ann") and an empty search
text the selectable list has exactly two entries, the first contact with id 1 followed by
the contact with id 2; the second contact with id 1 is the one dropped. -/
theorem annContacts_selectable_two :
    filteredContacts annContacts "" =
      [{ id := .num 1, name := "Ann" }, { id := .num 2, name := "Ann" }] ∧
    availableContacts annContacts =
      [{ id := .num 1, name := "Ann" }, { id := .num 2, name := "Ann" }] ∧
    (filteredContacts annContacts "").length = 2 := by
  decide

/-! ## Committing the group -/

/-- C3: whatever the state and the description text, when the trimmed group name is empty
`handleCreateGroup` calls neither `onCreateGroup` nor `onClose` (so no group record is
produced), and the "Create" button bound to it is not active. -/
theorem handleCreateGroup_refuses_blank_name (contacts : List Contact) (s : State)
    (description : String) (now date : Nat) (h : trim s.groupName = "") :
    handleCreateGroup { s with groupDescription := description } now date = [] ∧
    effects { s with groupDescription := description } (.create now date) = [] ∧
    enabled contacts { s with groupDescription := description } (.create now date) = false := by
  simp [handleCreateGroup, effects, enabled, truthy, h]

theorem handleCreateGroup_refuses_blank_name_witness :
    trim blankNameState.groupName = "" ∧
    handleCreateGroup { blankNameState with groupDescription := "weekend plans" } 7 7 = [] :=
  ⟨by decide,
   (handleCreateGroup_refuses_blank_name [] blankNameState "weekend plans" 7 7 (by decide)).1⟩

theorem truthy_of_ne_empty (t : String) (h : t ≠ "") : truthy t = true := by
  cases t with
  | mk data =>
    cases data with
    | nil => exact absurd rfl h
    | cons a l => rfl

/-- C4: with a non-empty selection and a group name whose trimmed form is not empty,
`handleCreateGroup` calls `onCreateGroup` once, with a record whose members are the current
selection, whose name and description are the entered texts, and then calls `onClose`.  In
particular toggling contacts with ids 1 and 2, pressing next and entering the name "Trip"
yields a record with 2 members and the name "Trip". -/
theorem handleCreateGroup_commits (s : State) (now date : Nat) (c1 c2 : Contact)
    (hsel : s.selectedContacts ≠ []) (hname : trim s.groupName ≠ "")
    (h1 : c1.id = .num 1) (h2 : c2.id = .num 2) :
    handleCreateGroup s now date =
      [Effect.onCreateGroup
        { id := now
          name := s.groupName
          description := s.groupDescription
          members := s.selectedContacts
          isGroup := true
          avatar := none
          createdBy := "You"
          createdAt := date },
       Effect.onClose] ∧
    ∃ g : Group,
      handleCreateGroup
        (setGroupName (handleNext (handleContactToggle (handleContactToggle initialState c1) c2))
          "Trip") now date = [Effect.onCreateGroup g, Effect.onClose] ∧
      g.members = [c1, c2] ∧ g.members.length = 2 ∧ g.name = "Trip" := by
  constructor
  · have hlen : 0 < s.selectedContacts.length := List.length_pos.mpr hsel
    simp [handleCreateGroup, truthy_of_ne_empty _ hname, hlen]
  · have htrip : truthy (trim "Trip") = true := by decide
    have hsel2 : toggleContact (toggleContact [] c1) c2 = [c1, c2] := by
      simp [toggleContact, h1, h2]
    refine ⟨{ id := now, name := "Trip", description := "", members := [c1, c2], isGroup := true,
              avatar := none, createdBy := "You", createdAt := date }, ?_, rfl, rfl, rfl⟩
    simp [handleCreateGroup, setGroupName, handleNext, handleContactToggle, initialState,
      hsel2, htrip]

theorem handleCreateGroup_commits_witness :
    tripState.selectedContacts ≠ [] ∧ trim tripState.groupName ≠ "" ∧
    handleCreateGroup tripState 1700000000000 1700000000001 =
      [Effect.onCreateGroup
        { id := 1700000000000
          name := " Trip "
          description := "hiking"
          members := [{ id := .num 1, name := "Ann" }]
          isGroup := true
          avatar := none
          createdBy := "You"
          createdAt := 1700000000001 },
       Effect.onClose] :=
  ⟨by decide, by decide,
   (handleCreateGroup_commits tripState 1700000000000 1700000000001
      { id := .num 1, name := "Ann" } { id := .num 2, name := "Bob" }
      (by decide) (by decide) rfl rfl).1⟩

/-! ## The step relation -/

theorem reachable_selection_of_not_first (contacts : List Contact) (s : State)
    (h : Reachable contacts s) : s.step ≠ 1 → s.selectedContacts ≠ [] := by
  induction h with
  | init => intro hs; exact absurd rfl hs
  | @step s0 a _ hen ih =>
    cases a with
    | close => simpa [perform] using ih
    | back => intro hs; exact absurd rfl hs
    | next =>
      simp only [enabled, Bool.and_eq_true, beq_iff_eq, decide_eq_true_eq] at hen
      intro _
      have hpos : 0 < s0.selectedContacts.length := hen.2
      have hne : s0.selectedContacts ≠ [] := List.length_pos.mp hpos
      simp only [perform, handleNext, hpos, if_true]
      exact hne
    | create now date => simpa [perform] using ih
    | search value =>
      simp only [enabled, beq_iff_eq] at hen
      intro hs
      exact absurd hen hs
    | removePill contact =>
      simp only [enabled, Bool.and_eq_true, beq_iff_eq] at hen
      intro hs
      exact absurd hen.1.1 hs
    | toggle contact =>
      simp only [enabled, Bool.and_eq_true, beq_iff_eq] at hen
      intro hs
      exact absurd hen.1 hs
    | editName value => simpa [perform, setGroupName] using ih
    | editDescription value => simpa [perform, setGroupDescription] using ih

/-- C5: in the step relation of the rendered wizard (initially step 1 with an empty
selection; a step is any handler bound to a rendered, active control), every reachable state
whose step is 2 has a non-empty selection. -/
theorem reachable_details_selection_nonempty (contacts : List Contact) (s : State)
    (h : Reachable contacts s) (hstep : s.step = 2) : s.selectedContacts ≠ [] :=
  reachable_selection_of_not_first contacts s h (by omega)

theorem reachable_details_selection_nonempty_witness :
    Reachable sampleContacts
      (perform (perform initialState (.toggle { id := .num 1, name := "Ann" })) .next) ∧
    (perform (perform initialState (.toggle { id := .num 1, name := "Ann" })) .next).step = 2 ∧
    (perform (perform initialState (.toggle { id := .num 1, name := "Ann" })) .next).selectedContacts
      ≠ [] :=
  have hr : Reachable sampleContacts
      (perform (perform initialState (.toggle { id := .num 1, name := "Ann" })) .next) :=
    Reachable.step _ (Reachable.step _ Reachable.init (by decide)) (by decide)
  ⟨hr, by decide, reachable_details_selection_nonempty sampleContacts _ hr (by decide)⟩

/-! ## The selection list -/

theorem toggleContact_of_absent (sel : List Contact) (c : Contact)
    (h : ∀ d ∈ sel, d.id ≠ c.id) : toggleContact sel c = sel ++ [c] := by
  have : sel.any (fun d => d.id == c.id) = false := by
    rw [List.any_eq_false]
    intro d hd
    simpa using h d hd
  simp [toggleContact, this]

theorem toggleContact_of_present (sel : List Contact) (c : Contact)
    (h : ∃ d ∈ sel, d.id = c.id) :
    toggleContact sel c = sel.filter (fun d => d.id != c.id) := by
  have : sel.any (fun d => d.id == c.id) = true := by
    rw [List.any_eq_true]
    obtain ⟨d, hd, e⟩ := h
    exact ⟨d, hd, by simpa using e⟩
  simp [toggleContact, this]

theorem removeContact_pairwise (sel : List Contact) (i : ContactId)
    (h : sel.Pairwise (fun a b => a.id ≠ b.id)) :
    (removeContact sel i).Pairwise (fun a b => a.id ≠ b.id) :=
  h.sublist (List.filter_sublist _)

theorem toggleContact_pairwise (sel : List Contact) (c : Contact)
    (h : sel.Pairwise (fun a b => a.id ≠ b.id)) :
    (toggleContact sel c).Pairwise (fun a b => a.id ≠ b.id) := by
  by_cases hp : ∃ d ∈ sel, d.id = c.id
  · rw [toggleContact_of_present sel c hp]
    exact h.sublist (List.filter_sublist _)
  · have ha : ∀ d ∈ sel, d.id ≠ c.id := fun d hd e => hp ⟨d, hd, e⟩
    rw [toggleContact_of_absent sel c ha, List.pairwise_append]
    refine ⟨h, List.pairwise_singleton _ _, ?_⟩
    intro a ha1 b hb
    rw [List.mem_singleton] at hb
    subst hb
    exact ha a ha1

/-- C6: for a selection with pairwise distinct ids and any contact `c`, toggling `c` twice
gives back the original selection: the result has exactly the ids of the original (as a
rearrangement of the id list, and again pairwise distinct), and when the id of `c` was not
selected the resulting list is the original list. -/
theorem toggleContact_twice (sel : List Contact) (c : Contact)
    (h : sel.Pairwise (fun a b => a.id ≠ b.id)) :
    (∀ i, i ∈ (toggleContact (toggleContact sel c) c).map (·.id) ↔ i ∈ sel.map (·.id)) ∧
    ((toggleContact (toggleContact sel c) c).map (·.id)).Perm (sel.map (·.id)) ∧
    ((∀ d ∈ sel, d.id ≠ c.id) → toggleContact (toggleContact sel c) c = sel) := by
  have hback : (∀ d ∈ sel, d.id ≠ c.id) → toggleContact (toggleContact sel c) c = sel := by
    intro ha
    rw [toggleContact_of_absent sel c ha,
      toggleContact_of_present (sel ++ [c]) c ⟨c, by simp, rfl⟩]
    rw [List.filter_append, List.filter_eq_self.mpr (fun d hd => by simpa using ha d hd)]
    simp
  have hmem : ∀ i, i ∈ (toggleContact (toggleContact sel c) c).map (·.id) ↔ i ∈ sel.map (·.id) := by
    intro i
    by_cases hp : ∃ d ∈ sel, d.id = c.id
    · have hgone : ∀ d ∈ sel.filter (fun d => d.id != c.id), d.id ≠ c.id := by
        intro d hd
        simpa using (List.mem_filter.mp hd).2
      rw [toggleContact_of_present sel c hp, toggleContact_of_absent _ c hgone]
      simp only [List.map_append, List.map_cons, List.map_nil, List.mem_append, List.mem_map,
        List.mem_filter, List.mem_singleton]
      constructor
      · rintro (⟨d, ⟨hd, _⟩, rfl⟩ | rfl)
        · exact ⟨d, hd, rfl⟩
        · obtain ⟨d, hd, e⟩ := hp
          exact ⟨d, hd, e⟩
      · rintro ⟨d, hd, rfl⟩
        by_cases e : d.id = c.id
        · exact Or.inr e
        · exact Or.inl ⟨d, ⟨hd, by simpa using e⟩, rfl⟩
    · have ha : ∀ d ∈ sel, d.id ≠ c.id := fun d hd e => hp ⟨d, hd, e⟩
      rw [hback ha]
  refine ⟨hmem, ?_, hback⟩
  have hnd : ∀ l : List Contact, l.Pairwise (fun a b => a.id ≠ b.id) → (l.map (·.id)).Nodup := by
    intro l hl
    rw [List.Nodup, List.pairwise_map]
    exact hl
  exact (List.perm_ext_iff_of_nodup
    (hnd _ (toggleContact_pairwise _ c (toggleContact_pairwise sel c h))) (hnd _ h)).mpr hmem

theorem toggleContact_twice_witness :
    toggleContact (toggleContact
      [{ id := .num 1, name := "Ann" }, { id := .num 2, name := "Bob" }]
      { id := .num 1, name := "Ann" }) { id := .num 1, name := "Ann" } =
      [{ id := .num 2, name := "Bob" }, { id := .num 1, name := "Ann" }] ∧
    ((toggleContact (toggleContact
      [{ id := .num 1, name := "Ann" }, { id := .num 2, name := "Bob" }]
      { id := .num 1, name := "Ann" }) { id := .num 1, name := "Ann" }).map (·.id)).Perm
      [.num 1, .num 2] :=
  ⟨by decide,
   (toggleContact_twice [{ id := .num 1, name := "Ann" }, { id := .num 2, name := "Bob" }]
      { id := .num 1, name := "Ann" } (by decide)).2.1⟩

theorem runCalls_snoc (calls : List SelectionCall) (call : SelectionCall) :
    runCalls (calls ++ [call]) = applyCall (runCalls calls) call := by
  simp [runCalls, List.foldl_append]

theorem runCalls_pairwise (calls : List SelectionCall) :
    (runCalls calls).Pairwise (fun a b => a.id ≠ b.id) := by
  induction calls using List.reverseRecOn with
  | nil => simp [runCalls]
  | append_singleton l call ih =>
    rw [runCalls_snoc]
    cases call with
    | toggle contact => exact toggleContact_pairwise _ _ ih
    | remove contactId => exact removeContact_pairwise _ _ ih

theorem AddedAt.snoc {calls : List SelectionCall} {k : Nat} {c : Contact}
    (h : AddedAt calls k c) (call : SelectionCall) (hne : call.id ≠ c.id) :
    AddedAt (calls ++ [call]) k c := by
  obtain ⟨hk, hlater⟩ := h
  have hlt : k < calls.length := by
    obtain ⟨hlt, _⟩ := List.getElem?_eq_some.mp hk
    exact hlt
  refine ⟨by rw [List.getElem?_append_left hlt]; exact hk, ?_⟩
  intro j call2 hj hget
  by_cases hjl : j < calls.length
  · rw [List.getElem?_append_left hjl] at hget
    exact hlater j call2 hj hget
  · have hle : calls.length ≤ j := Nat.le_of_not_lt hjl
    rw [List.getElem?_append_right hle] at hget
    obtain ⟨hlt2, e⟩ := List.getElem?_eq_some.mp hget
    have hz : j - calls.length = 0 := by
      simp only [List.length_singleton] at hlt2
      omega
    simp only [hz, List.getElem_cons_zero] at e
    rw [← e]
    exact hne

theorem AddedAt.last (calls : List SelectionCall) (c : Contact) :
    AddedAt (calls ++ [.toggle c]) calls.length c := by
  refine ⟨by simp, ?_⟩
  intro j call hj hget
  have : (calls ++ [SelectionCall.toggle c]).length ≤ j := by
    simp only [List.length_append, List.length_singleton]
    omega
  rw [List.getElem?_eq_none this] at hget
  exact absurd hget (by simp)

/-- The selection after `calls`, each entry tagged with the number of the call that added
it: the tags increase along the list. -/
theorem runCalls_tagged (calls : List SelectionCall) :
    ∃ tagged : List (Nat × Contact),
      tagged.map Prod.snd = runCalls calls ∧
      tagged.Pairwise (fun a b => a.1 < b.1) ∧
      ∀ p ∈ tagged, AddedAt calls p.1 p.2 := by
  induction calls using List.reverseRecOn with
  | nil => exact ⟨[], rfl, List.Pairwise.nil, by simp⟩
  | append_singleton l call ih =>
    obtain ⟨tagged, hmap, hsorted, hadded⟩ := ih
    -- dropping the entries with a given id
    have hdrop : ∀ i : ContactId, call.id = i →
        ∃ tagged2 : List (Nat × Contact),
          tagged2.map Prod.snd = (runCalls l).filter (fun c => c.id != i) ∧
          tagged2.Pairwise (fun a b => a.1 < b.1) ∧
          ∀ p ∈ tagged2, AddedAt (l ++ [call]) p.1 p.2 := by
      intro i hi
      refine ⟨tagged.filter (fun p => p.2.id != i), ?_, hsorted.sublist (List.filter_sublist _), ?_⟩
      · rw [← hmap, List.filter_map]
        rfl
      · intro p hp
        obtain ⟨hp1, hp2⟩ := List.mem_filter.mp hp
        refine (hadded p hp1).snoc call ?_
        rw [hi]
        intro e
        simp [e] at hp2
    rw [runCalls_snoc]
    cases call with
    | remove contactId => exact hdrop contactId rfl
    | toggle contact =>
      by_cases hp : ∃ d ∈ runCalls l, d.id = contact.id
      · simp only [applyCall]
        rw [toggleContact_of_present _ _ hp]
        exact hdrop contact.id rfl
      · have ha : ∀ d ∈ runCalls l, d.id ≠ contact.id := fun d hd e => hp ⟨d, hd, e⟩
        simp only [applyCall]
        rw [toggleContact_of_absent _ _ ha]
        refine ⟨tagged ++ [(l.length, contact)], by simp [hmap], ?_, ?_⟩
        · rw [List.pairwise_append]
          refine ⟨hsorted, List.pairwise_singleton _ _, ?_⟩
          intro a ha1 b hb
          rw [List.mem_singleton] at hb
          subst hb
          obtain ⟨hlt, _⟩ := List.getElem?_eq_some.mp (hadded a ha1).1
          exact hlt
        · intro p hp2
          rcases List.mem_append.mp hp2 with hp2 | hp2
          · refine (hadded p hp2).snoc _ ?_
            have hmem : p.2 ∈ runCalls l := by
              rw [← hmap]
              exact List.mem_map_of_mem _ hp2
            exact fun e => ha p.2 hmem e.symm
          · rw [List.mem_singleton] at hp2
            subst hp2
            exact AddedAt.last l contact

/-- C7: starting from the empty selection, after any finite sequence of
`handleContactToggle` and `removeSelectedContact` calls no two entries of the selection have
the same id, and the entries stand in the order in which they were most recently added: the
entries can be tagged with strictly increasing call numbers such that each entry's call is a
toggle of that very contact and no later call is about its id. -/
theorem runCalls_distinct_in_insertion_order (calls : List SelectionCall) :
    (runCalls calls).Pairwise (fun a b => a.id ≠ b.id) ∧
    ∃ tagged : List (Nat × Contact),
      tagged.map Prod.snd = runCalls calls ∧
      tagged.Pairwise (fun a b => a.1 < b.1) ∧
      ∀ p ∈ tagged,
        calls[p.1]? = some (.toggle p.2) ∧
        ∀ j call, p.1 < j → calls[j]? = some call → call.id ≠ p.2.id :=
  ⟨runCalls_pairwise calls, runCalls_tagged calls⟩

/-! ## Length ceilings of the name and the description -/

theorem length_le_jsLength (t : String) : t.length ≤ jsLength t := by
  cases t with
  | mk data =>
    show data.length ≤ (data.map (fun c => if c.toNat < 0x10000 then 1 else 2)).sum
    induction data with
    | nil => simp
    | cons a l ih =>
      simp only [List.length_cons, List.map_cons, List.sum_cons]
      split <;> omega

theorem runEdits_snoc (s : State) (edits : List EditCall) (e : EditCall) :
    runEdits s (edits ++ [e]) = applyEdit (runEdits s edits) e := by
  simp [runEdits, List.foldl_append]

theorem jsLength_replicate (n : Nat) (c : Char) (h : c.toNat < 0x10000) :
    jsLength (String.mk (List.replicate n c)) = n := by
  induction n with
  | zero => rfl
  | succ k ih =>
    simp only [jsLength, List.replicate_succ, List.map_cons, List.sum_cons, h, if_true] at ih ⊢
    omega

/-- C8 as stated fails: the change handlers store the text they are called with as it is, so
one call with 51 letters leaves a name of 51 characters, above the ceiling of 50, and one
call with 201 letters a description of 201 characters, above the ceiling of 200. -/
theorem runEdits_exceeds_ceiling :
    ¬ ((runEdits initialState [.name text51]).groupName.length ≤ 50) ∧
    ¬ (jsLength (runEdits initialState [.name text51]).groupName ≤ 50) ∧
    ¬ ((runEdits initialState [.description text201]).groupDescription.length ≤ 200) ∧
    ¬ (jsLength (runEdits initialState [.description text201]).groupDescription ≤ 200) := by
  have h1 : (runEdits initialState [.name text51]).groupName.length = 51 :=
    List.length_replicate 51 'a'
  have h2 : jsLength (runEdits initialState [.name text51]).groupName = 51 :=
    jsLength_replicate 51 'a' (by decide)
  have h3 : (runEdits initialState [.description text201]).groupDescription.length = 201 :=
    List.length_replicate 201 'b'
  have h4 : jsLength (runEdits initialState [.description text201]).groupDescription = 201 :=
    jsLength_replicate 201 'b' (by decide)
  rw [h1, h2, h3, h4]
  omega

/-- C8, amended: after any sequence of name and description edits in which every name text
has at most 50 and every description text at most 200 UTF-16 code units (the bound the
`maxLength` attributes of the two inputs put on a user edit), the stored name has at most 50
and the stored description at most 200 code units, hence also characters. -/
theorem runEdits_within_ceiling (edits : List EditCall)
    (h : ∀ e ∈ edits, withinMaxLength e = true) :
    jsLength (runEdits initialState edits).groupName ≤ 50 ∧
    jsLength (runEdits initialState edits).groupDescription ≤ 200 ∧
    (runEdits initialState edits).groupName.length ≤ 50 ∧
    (runEdits initialState edits).groupDescription.length ≤ 200 := by
  have key : jsLength (runEdits initialState edits).groupName ≤ 50 ∧
      jsLength (runEdits initialState edits).groupDescription ≤ 200 := by
    induction edits using List.reverseRecOn with
    | nil => decide
    | append_singleton l e ih =>
      have hl : ∀ x ∈ l, withinMaxLength x = true :=
        fun x hx => h x (List.mem_append_left _ hx)
      have he : withinMaxLength e = true := h e (by simp)
      obtain ⟨ih1, ih2⟩ := ih hl
      rw [runEdits_snoc]
      cases e with
      | name value =>
        simp only [withinMaxLength, decide_eq_true_eq] at he
        exact ⟨he, ih2⟩
      | description value =>
        simp only [withinMaxLength, decide_eq_true_eq] at he
        exact ⟨ih1, he⟩
  exact ⟨key.1, key.2, le_trans (length_le_jsLength _) key.1,
    le_trans (length_le_jsLength _) key.2⟩

theorem runEdits_within_ceiling_witness :
    (∀ e ∈ [EditCall.name "Trip", EditCall.description "hiking", EditCall.name "Trip 2"],
      withinMaxLength e = true) ∧
    (runEdits initialState
      [EditCall.name "Trip", EditCall.description "hiking", EditCall.name "Trip 2"]).groupName
      = "Trip 2" ∧
    jsLength (runEdits initialState
      [EditCall.name "Trip", EditCall.description "hiking", EditCall.name "Trip 2"]).groupName
      ≤ 50 :=
  ⟨by decide, by decide,
   (runEdits_within_ceiling
      [EditCall.name "Trip", EditCall.description "hiking", EditCall.name "Trip 2"]
      (by decide)).1⟩

/-- In the step relation of the rendered wizard, where the inputs carry `maxLength`, every
reachable state keeps the name within 50 and the description within 200 code units. -/
theorem reachable_within_ceiling (contacts : List Contact) (s : State)
    (h : Reachable contacts s) :
    jsLength s.groupName ≤ 50 ∧ jsLength s.groupDescription ≤ 200 := by
  induction h with
  | init => decide
  | @step s0 a _ hen ih =>
    cases a with
    | close => exact ih
    | back => exact ih
    | next =>
      simp only [perform, handleNext]
      split <;> exact ih
    | create now date => exact ih
    | search value => exact ih
    | removePill contact => exact ih
    | toggle contact => exact ih
    | editName value =>
      simp only [enabled, Bool.and_eq_true, decide_eq_true_eq] at hen
      exact ⟨hen.2, ih.2⟩
    | editDescription value =>
      simp only [enabled, Bool.and_eq_true, decide_eq_true_eq] at hen
      exact ⟨ih.1, hen.2⟩

/-! ## The gateway without a backend handle -/

/-- C9: without a backend handle (`supabase` is `null`) every gateway operation returns its
failure object, without throwing and without any call to the external service:
`uploadFileToSupabase` and `deleteFileFromSupabase` return
`{success: false, error: "Supabase client not initialized"}` for every argument, and each
`supabaseDb` operation returns `{data: null, error}` with an error of that message. -/
theorem gateway_without_handle :
    (∀ file bucket path now random36,
      uploadFileToSupabase none file bucket path now random36 =
        ⟨[], .returned (.failure (some "Supabase client not initialized"))⟩) ∧
    (∀ fileName bucket,
      deleteFileFromSupabase none fileName bucket =
        ⟨[], .returned (.failure (some "Supabase client not initialized"))⟩) ∧
    (∀ sessionId,
      supabaseDb.getAISession none sessionId =
        ⟨[], .returned ⟨none, some ⟨some "Supabase client not initialized"⟩⟩⟩) ∧
    (∀ sessionData,
      supabaseDb.createAISession none sessionData =
        ⟨[], .returned ⟨none, some ⟨some "Supabase client not initialized"⟩⟩⟩) ∧
    (∀ sessionId updates,
      supabaseDb.updateAISession none sessionId updates =
        ⟨[], .returned ⟨none, some ⟨some "Supabase client not initialized"⟩⟩⟩) ∧
    (∀ docData,
      supabaseDb.createProcessedDocument none docData =
        ⟨[], .returned ⟨none, some ⟨some "Supabase client not initialized"⟩⟩⟩) ∧
    (∀ sessionId,
      supabaseDb.getProcessedDocuments none sessionId =
        ⟨[], .returned ⟨none, some ⟨some "Supabase client not initialized"⟩⟩⟩) :=
  ⟨fun _ _ _ _ _ => rfl, fun _ _ => rfl, fun _ => rfl, fun _ => rfl, fun _ _ => rfl,
   fun _ => rfl, fun _ => rfl⟩

/-! ## The gateway with a failing backend -/

/-- C10 as stated fails: with a backend handle whose query throws, `supabaseDb.getAISession`
makes the query and throws the same error; it does not return it as data. -/
theorem getAISession_throws :
    supabaseDb.getAISession (some throwingClient) "session-1" =
      ⟨[Call.query (.selectSingle "ai_sessions" "session_id" "session-1")],
       .threw (.value (some "fetch failed"))⟩ ∧
    ¬ ∃ r, (supabaseDb.getAISession (some throwingClient) "session-1").result = .returned r := by
  refine ⟨rfl, ?_⟩
  rintro ⟨r, hr⟩
  have hthrew : (Completion.threw (.value (some "fetch failed")) : Completion DbResult)
      = .returned r := hr
  cases hthrew

theorem runQuery_resolved (sb : Client) (q : Query) (data : Option Json)
    (error : Option ServiceError) (h : sb.query q = .resolved data error) :
    (runQuery (some sb) q).result = .returned ⟨data, error⟩ := by
  simp [runQuery, h]

/-- C10, amended: with a backend handle, `uploadFileToSupabase` and `deleteFileFromSupabase`
do not throw when the external call returns an error or throws a value other than `null` /
`undefined`: they return `{success: false, error: message}`.  Each `supabaseDb` operation
returns the `{data, error}` its external call resolves to, with or without an error, as
data; it catches nothing, so this holds for calls that resolve. -/
theorem gateway_failures_as_data (sb : Client) :
    (∀ file bucket path now random36,
      let fileName := generatedFileName (path.getD "") now random36 file.originalname
      let response := sb.upload (bucket.getD "documents") fileName file.buffer file.mimetype false
      let run := uploadFileToSupabase (some sb) file bucket path now random36
      (∀ data error, response = .resolved data (some error) →
        run.result = .returned (.failure error.message)) ∧
      (∀ message, response = .threw (.value message) →
        run.result = .returned (.failure message)) ∧
      (∀ data message, response = .resolved data none →
        sb.getPublicUrl (bucket.getD "documents") fileName = .error (.value message) →
        run.result = .returned (.failure message)) ∧
      (response ≠ .threw .nullish →
        sb.getPublicUrl (bucket.getD "documents") fileName ≠ .error .nullish →
        ∃ r, run.result = .returned r)) ∧
    (∀ fileName bucket,
      let response := sb.remove (bucket.getD "documents") [fileName]
      let run := deleteFileFromSupabase (some sb) fileName bucket
      (∀ data error, response = .resolved data (some error) →
        run.result = .returned (.failure error.message)) ∧
      (∀ message, response = .threw (.value message) →
        run.result = .returned (.failure message)) ∧
      (response ≠ .threw .nullish → ∃ r, run.result = .returned r)) ∧
    (∀ sessionId data error,
      sb.query (.selectSingle "ai_sessions" "session_id" sessionId) = .resolved data error →
      (supabaseDb.getAISession (some sb) sessionId).result = .returned ⟨data, error⟩) ∧
    (∀ sessionData data error,
      sb.query (.insertSingle "ai_sessions" sessionData) = .resolved data error →
      (supabaseDb.createAISession (some sb) sessionData).result = .returned ⟨data, error⟩) ∧
    (∀ sessionId updates data error,
      sb.query (.updateSingle "ai_sessions" updates "session_id" sessionId) = .resolved data error →
      (supabaseDb.updateAISession (some sb) sessionId updates).result = .returned ⟨data, error⟩) ∧
    (∀ docData data error,
      sb.query (.insertSingle "processed_documents" docData) = .resolved data error →
      (supabaseDb.createProcessedDocument (some sb) docData).result = .returned ⟨data, error⟩) ∧
    (∀ sessionId data error,
      sb.query (.selectOrdered "processed_documents" "session_id" sessionId "uploaded_at" false)
        = .resolved data error →
      (supabaseDb.getProcessedDocuments (some sb) sessionId).result = .returned ⟨data, error⟩) := by
  refine ⟨?_, ?_, ?_, ?_, ?_, ?_, ?_⟩
  · intro file bucket path now random36
    refine ⟨?_, ?_, ?_, ?_⟩
    · intro data error h
      simp [uploadFileToSupabase, h, uploadCatch]
    · intro message h
      simp [uploadFileToSupabase, h, uploadCatch]
    · intro data message h hurl
      simp [uploadFileToSupabase, h, hurl, uploadCatch]
    · intro h hurl
      simp only [uploadFileToSupabase]
      split
      · rename_i t ht
        cases t with
        | nullish => exact absurd ht h
        | value message => exact ⟨_, rfl⟩
      · exact ⟨_, rfl⟩
      · split
        · rename_i t ht
          cases t with
          | nullish => exact absurd ht hurl
          | value message => exact ⟨_, rfl⟩
        · exact ⟨_, rfl⟩
  · intro fileName bucket
    refine ⟨?_, ?_, ?_⟩
    · intro data error h
      simp [deleteFileFromSupabase, h, deleteCatch]
    · intro message h
      simp [deleteFileFromSupabase, h, deleteCatch]
    · intro h
      simp only [deleteFileFromSupabase]
      split
      · rename_i t ht
        cases t with
        | nullish => exact absurd ht h
        | value message => exact ⟨_, rfl⟩
      · exact ⟨_, rfl⟩
      · exact ⟨_, rfl⟩
  · intro sessionId data error h
    exact runQuery_resolved sb _ data error h
  · intro sessionData data error h
    exact runQuery_resolved sb _ data error h
  · intro sessionId updates data error h
    exact runQuery_resolved sb _ data error h
  · intro docData data error h
    exact runQuery_resolved sb _ data error h
  · intro sessionId data error h
    exact runQuery_resolved sb _ data error h

theorem gateway_failures_as_data_witness :
    (uploadFileToSupabase (some failingClient) sampleFile none none 1700000000000
      "0.4fzyo82mvyr").result = .returned (.failure (some "Bucket not found")) ∧
    (deleteFileFromSupabase (some failingClient) "a.pdf" none).result =
      .returned (.failure (some "fetch failed")) ∧
    (supabaseDb.getAISession (some failingClient) "session-1").result =
      .returned ⟨none, some ⟨some "JSON object requested, no rows returned"⟩⟩ :=
  ⟨((gateway_failures_as_data failingClient).1 sampleFile none none 1700000000000
      "0.4fzyo82mvyr").1 none ⟨some "Bucket not found"⟩ rfl,
   ((gateway_failures_as_data failingClient).2.1 "a.pdf" none).2.1 (some "fetch failed") rfl,
   (gateway_failures_as_data failingClient).2.2.1 "session-1" none _ rfl⟩

/-! ## Which contacts the selectable list keeps -/

theorem keepFirst_sublist (seen : List ContactId) (l : List Contact) :
    (keepFirst seen l).Sublist l := by
  induction l generalizing seen with
  | nil => simp [keepFirst]
  | cons x xs ih =>
    by_cases hmem : x.id ∈ seen
    · simp only [keepFirst, hmem, if_true]
      exact (ih _).cons x
    · simp only [keepFirst, hmem, if_false]
      exact (ih _).cons₂ x

theorem keepFirst_filter_id (seen : List ContactId) (l : List Contact) (i : ContactId) :
    (keepFirst seen l).filter (fun c => c.id == i) =
      if i ∈ seen then [] else (l.find? (fun c => c.id == i)).toList := by
  induction l generalizing seen with
  | nil => simp [keepFirst]
  | cons x xs ih =>
    by_cases hmem : x.id ∈ seen
    · simp only [keepFirst, hmem, if_true]
      rw [ih]
      by_cases hi : i ∈ seen
      · simp [hi]
      · have hne : x.id ≠ i := fun e => hi (e ▸ hmem)
        have hne2 : ¬ i = x.id := fun e => hne e.symm
        simp [hi, hne, hne2, List.find?_cons]
    · simp only [keepFirst, hmem, if_false]
      by_cases hx : x.id = i
      · subst hx
        simp [List.filter_cons, ih, hmem, List.find?_cons]
      · have hne2 : ¬ i = x.id := fun e => hx e.symm
        simp [List.filter_cons, ih, hx, hne2, List.find?_cons]

theorem find?_filter_flags (contacts : List Contact) (i : ContactId) :
    (contacts.filter (fun contact => !contact.isDocument && !contact.isGroup)).find?
        (fun c => c.id == i) =
      contacts.find? (fun c => !c.isDocument && !c.isGroup && c.id == i) := by
  rw [List.find?_filter]
  congr 1
  funext c
  have hbeq : decide (c.id = i) = (c.id == i) := rfl
  cases c.isDocument <;> cases c.isGroup <;> simp [hbeq]

/-- C11: for every contact list, and for each id, the entries of `availableContacts` with
that id are exactly the first contact of the input that is neither a document nor a group
and has that id (none when no such contact exists); and `availableContacts` is a sublist of
the input, so the kept contacts stand in the same relative order as in the input. -/
theorem availableContacts_keeps_first (contacts : List Contact) :
    (availableContacts contacts).Sublist contacts ∧
    ∀ i : ContactId,
      (availableContacts contacts).filter (fun c => c.id == i) =
        (contacts.find? (fun c => !c.isDocument && !c.isGroup && c.id == i)).toList := by
  rw [availableContacts_eq_keepFirst]
  refine ⟨(keepFirst_sublist _ _).trans (List.filter_sublist _), ?_⟩
  intro i
  rw [keepFirst_filter_id, find?_filter_flags]
  simp

/-! ## The search filter -/

theorem startsWithChars_iff (s t : List Char) :
    startsWithChars s t = true ↔ ∃ rest, s = t ++ rest := by
  induction s generalizing t with
  | nil =>
    cases t with
    | nil => simp [startsWithChars]
    | cons b t => simp [startsWithChars]
  | cons a s ih =>
    cases t with
    | nil => simp [startsWithChars]
    | cons b t =>
      simp only [startsWithChars, Bool.and_eq_true, beq_iff_eq, ih, List.cons_append,
        List.cons.injEq]
      constructor
      · rintro ⟨hab, rest, hrest⟩
        exact ⟨rest, hab, hrest⟩
      · rintro ⟨rest, hab, hrest⟩
        exact ⟨hab, rest, hrest⟩

theorem includesChars_iff (s t : List Char) :
    includesChars s t = true ↔ ∃ before after, s = before ++ t ++ after := by
  induction s with
  | nil =>
    simp only [includesChars, List.isEmpty_iff]
    constructor
    · intro ht
      exact ⟨[], [], by simp [ht]⟩
    · rintro ⟨before, after, h⟩
      have h2 := congrArg List.length h
      simp only [List.length_nil, List.length_append] at h2
      exact List.length_eq_zero.mp (by omega)
  | cons a s ih =>
    simp only [includesChars, Bool.or_eq_true, startsWithChars_iff, ih]
    constructor
    · rintro (⟨rest, h⟩ | ⟨before, after, h⟩)
      · exact ⟨[], rest, by simpa using h⟩
      · exact ⟨a :: before, after, by simp [h]⟩
    · rintro ⟨before, after, h⟩
      cases before with
      | nil => exact Or.inl ⟨after, by simpa using h⟩
      | cons x before =>
        simp only [List.cons_append, List.cons.injEq] at h
        exact Or.inr ⟨before, after, h.2⟩

theorem includes_iff (s t : String) :
    includes s t = true ↔ ∃ before after : String, s = before ++ t ++ after := by
  unfold includes
  rw [includesChars_iff]
  constructor
  · rintro ⟨before, after, h⟩
    refine ⟨String.mk before, String.mk after, ?_⟩
    apply String.ext
    simpa using h
  · rintro ⟨before, after, h⟩
    refine ⟨before.data, after.data, ?_⟩
    rw [h]
    simp

theorem lowerCode_ascii : ∀ n, n < 128 → lowerCode n = if 65 ≤ n ∧ n ≤ 90 then n + 32 else n := by
  decide

theorem lowerChar_ascii (before following : List Char) (c : Char) (h : c.toNat < 128) :
    lowerChar before c following = [c.toLower] := by
  have h1 : ¬ c.toNat = 0x3A3 := by omega
  have h2 : ¬ c.toNat = 0x130 := by omega
  simp only [lowerChar, h1, h2, if_false, lowerCode_ascii c.toNat h, Char.toLower]
  by_cases hr : 65 ≤ c.toNat ∧ c.toNat ≤ 90
  · simp [hr]
  · simp [hr, Char.ofNat_toNat]

theorem lowerChars_ascii (before l : List Char) (h : ∀ c ∈ l, c.toNat < 128) :
    lowerChars before l = l.map Char.toLower := by
  induction l generalizing before with
  | nil => rfl
  | cons c cs ih =>
    have hc : c.toNat < 128 := h c (List.mem_cons_self _ _)
    have hcs : ∀ d ∈ cs, d.toNat < 128 := fun d hd => h d (List.mem_cons_of_mem _ hd)
    simp [lowerChars, lowerChar_ascii before cs c hc, ih (c :: before) hcs]

theorem toLowerCase_ascii (s : String) (h : ∀ c ∈ s.data, c.toNat < 128) :
    (toLowerCase s).data = s.data.map Char.toLower := by
  simp [toLowerCase, lowerChars_ascii [] s.data h]

/-- C12: for every contact list and every search text, a contact of the available list is in
`filteredContacts` if and only if the lower-cased search text is a substring of the
contact's lower-cased name, lower-casing being the Unicode conversion of
`String.prototype.toLowerCase`; when the name and the search text are ASCII this is: the
search text with its capital letters replaced by small ones occurs in the name so treated.
`filteredContacts` is a sublist of the available list, so the relative order is kept, and an
empty search text yields the whole available list.  For instance the contact "ÉMILE" is
found by the search text "é". -/
theorem filteredContacts_substring (contacts : List Contact) (searchTerm : String) :
    (∀ c ∈ availableContacts contacts,
      c ∈ filteredContacts contacts searchTerm ↔
        ∃ before after : String,
          toLowerCase c.name = before ++ toLowerCase searchTerm ++ after) ∧
    (∀ c ∈ availableContacts contacts,
      (∀ ch ∈ c.name.data, ch.toNat < 128) → (∀ ch ∈ searchTerm.data, ch.toNat < 128) →
      (c ∈ filteredContacts contacts searchTerm ↔
        ∃ before after : List Char,
          c.name.data.map Char.toLower =
            before ++ searchTerm.data.map Char.toLower ++ after)) ∧
    (filteredContacts contacts searchTerm).Sublist (availableContacts contacts) ∧
    filteredContacts contacts "" = availableContacts contacts ∧
    filteredContacts emileContacts "é" = emileContacts ∧
    filteredContacts emileContacts "Émi" = emileContacts ∧
    filteredContacts emileContacts "è" = [] := by
  refine ⟨?_, ?_, List.filter_sublist _, ?_, by decide, by decide, by decide⟩
  · intro c hc
    simp only [filteredContacts, List.mem_filter, hc, true_and]
    exact includes_iff _ _
  · intro c hc hname hsearch
    simp only [filteredContacts, List.mem_filter, hc, true_and, includes]
    rw [includesChars_iff, toLowerCase_ascii _ hname, toLowerCase_ascii _ hsearch]
  · unfold filteredContacts
    rw [List.filter_eq_self]
    intro c _
    rw [includes_iff]
    exact ⟨"", toLowerCase c.name, by apply String.ext; simp [toLowerCase, lowerChars]⟩

theorem filteredContacts_substring_witness :
    ({ id := .num 1, name := "Ann" } : Contact) ∈ filteredContacts sampleContacts "AN" :=
  ((filteredContacts_substring sampleContacts "AN").2.1 { id := .num 1, name := "Ann" }
    (by decide) (by decide) (by decide)).mpr ⟨[], ['n'], by decide⟩

theorem filteredContacts_sample :
    filteredContacts sampleContacts "AN" = [{ id := .num 1, name := "Ann" }] ∧
    filteredContacts sampleContacts "b" = [{ id := .num 2, name := "Bob" }] ∧
    filteredContacts sampleContacts "team" = [] := by
  decide

set_option maxRecDepth 20000 in
/-- Lower-casing beyond ASCII: the dotted capital I, the final sigma, the sharp s that stays,
and a letter outside the basic plane; a name ending in a capital sigma is found by the
search text with a final sigma, not by the one with a medial sigma. -/
theorem toLowerCase_sample :
    toLowerCase "İstanbul ΟΔΟΣ ΣΑΣ, Straße 𐐀" = "i̇stanbul οδος σας, straße 𐐨" ∧
    filteredContacts odosContacts "οδος" = odosContacts ∧
    filteredContacts odosContacts "οδοσ" = [] := by
  decide

/-! ## The generated file name -/

theorem splitChars_of_no_sep (sep : Char) (e : List Char) (h : sep ∉ e) :
    splitChars sep e = [e] := by
  induction e with
  | nil => rfl
  | cons c cs ih =>
    have hc : ¬ c = sep := fun e => h (by simp [e])
    have hcs : sep ∉ cs := fun hm => h (List.mem_cons_of_mem _ hm)
    simp [splitChars, hc, ih hcs]

theorem splitChars_append_sep (sep : Char) (s e : List Char) (h : sep ∉ e) :
    ∃ pieces, pieces ≠ [] ∧ splitChars sep (s ++ sep :: e) = pieces ++ [e] := by
  induction s with
  | nil =>
    exact ⟨[[]], by simp, by simp [splitChars, splitChars_of_no_sep sep e h]⟩
  | cons c cs ih =>
    obtain ⟨pieces, hne, hsplit⟩ := ih
    by_cases hc : c = sep
    · exact ⟨[] :: pieces, by simp, by simp [splitChars, hc, hsplit]⟩
    · cases pieces with
      | nil => exact absurd rfl hne
      | cons piece rest =>
        exact ⟨(c :: piece) :: rest, by simp, by simp [splitChars, hc, hsplit]⟩

theorem fileExtension_of_dot (stem ext : String) (h : '.' ∉ ext.data) :
    fileExtension (stem ++ "." ++ ext) = ext := by
  obtain ⟨pieces, _, hsplit⟩ := splitChars_append_sep '.' stem.data ext.data h
  have hdata : (stem ++ "." ++ ext).data = stem.data ++ '.' :: ext.data := by
    simp [String.data_append]
  unfold fileExtension
  rw [hdata, hsplit, List.getLastD_concat]

theorem fileExtension_of_no_dot (name : String) (h : '.' ∉ name.data) :
    fileExtension name = name := by
  unfold fileExtension
  rw [splitChars_of_no_sep '.' name.data h]
  rfl

theorem uploadFileToSupabase_first_call (sb : Client) (file : UploadFile)
    (bucket path : Option String) (now : Nat) (random36 : String) :
    (uploadFileToSupabase (some sb) file bucket path now random36).calls.head? =
      some (Call.upload (bucket.getD "documents")
        (generatedFileName (path.getD "") now random36 file.originalname)
        file.buffer file.mimetype false) := by
  simp only [uploadFileToSupabase]
  split
  · rename_i t _
    cases t <;> rfl
  · rfl
  · split
    · rename_i t _
      cases t <;> rfl
    · rfl

theorem exists_last_sep (sep : Char) (l : List Char) (h : sep ∈ l) :
    ∃ s e, l = s ++ sep :: e ∧ sep ∉ e := by
  induction l with
  | nil => simp at h
  | cons c cs ih =>
    by_cases hcs : sep ∈ cs
    · obtain ⟨s, e, hl, he⟩ := ih hcs
      exact ⟨c :: s, e, by simp [hl], he⟩
    · rcases List.mem_cons.mp h with hc | hc
      · exact ⟨[], cs, by simp [hc], hcs⟩
      · exact absurd hc hcs

/-- C13 as stated fails: the name "README" contains no ".", so it has no part after a last
"." and cannot be written as a stem, "." and an extension; the generated name nevertheless
ends in ".README", the whole original name standing where the extension goes. -/
theorem generatedFileName_without_dot :
    (¬ ∃ stem ext : String, "README" = stem ++ "." ++ ext) ∧
    fileExtension "README" = "README" ∧
    generatedFileName "uploads/" 1700000000000 "0.4fzyo82mvyr" "README" =
      "uploads/1700000000000_82mvyr.README" := by
  refine ⟨?_, by decide, by decide⟩
  rintro ⟨stem, ext, h⟩
  have hmem : '.' ∈ (stem ++ "." ++ ext).data := by simp [String.data_append]
  rw [← h] at hmem
  exact absurd hmem (by decide)

/-- C13, amended: for every original file name that contains a ".", every path prefix,
timestamp and random suffix, the file name generated by `uploadFileToSupabase` (the one it
passes to the storage upload) is the path prefix followed by the timestamp in decimal, "_",
the random suffix, "." and the original extension, where the original extension is the part
of the original name after its last "."; so the generated name keeps that extension. -/
theorem generatedFileName_keeps_extension (sb : Client) (file : UploadFile)
    (bucket path : Option String) (now : Nat) (random36 : String)
    (h : '.' ∈ file.originalname.data) :
    ∃ stem ext : String,
      file.originalname = stem ++ "." ++ ext ∧ '.' ∉ ext.data ∧
      fileExtension file.originalname = ext ∧
      generatedFileName (path.getD "") now random36 file.originalname =
        path.getD "" ++ toString now ++ "_" ++ randomSuffix random36 ++ "." ++ ext ∧
      (uploadFileToSupabase (some sb) file bucket path now random36).calls.head? =
        some (Call.upload (bucket.getD "documents")
          (path.getD "" ++ toString now ++ "_" ++ randomSuffix random36 ++ "." ++ ext)
          file.buffer file.mimetype false) := by
  obtain ⟨s, e, hl, he⟩ := exists_last_sep '.' file.originalname.data h
  have hname : file.originalname = String.mk s ++ "." ++ String.mk e := by
    apply String.ext
    simp [String.data_append, hl]
  have hext : fileExtension file.originalname = String.mk e := by
    rw [hname]
    exact fileExtension_of_dot _ _ he
  have hgen : generatedFileName (path.getD "") now random36 file.originalname =
      path.getD "" ++ toString now ++ "_" ++ randomSuffix random36 ++ "." ++ String.mk e := by
    unfold generatedFileName
    rw [hext]
  refine ⟨String.mk s, String.mk e, hname, he, hext, hgen, ?_⟩
  rw [uploadFileToSupabase_first_call, hgen]

theorem generatedFileName_keeps_extension_witness :
    '.' ∈ sampleFile.originalname.data ∧
    generatedFileName "docs/" 1700000000000 "0.4fzyo82mvyr" sampleFile.originalname =
      "docs/1700000000000_82mvyr.pdf" ∧
    ∃ stem ext : String,
      sampleFile.originalname = stem ++ "." ++ ext ∧ '.' ∉ ext.data ∧
      fileExtension sampleFile.originalname = ext ∧
      generatedFileName ((some "docs/").getD "") 1700000000000 "0.4fzyo82mvyr"
          sampleFile.originalname =
        (some "docs/").getD "" ++ toString 1700000000000 ++ "_" ++ randomSuffix "0.4fzyo82mvyr"
          ++ "." ++ ext ∧
      (uploadFileToSupabase (some failingClient) sampleFile none (some "docs/") 1700000000000
          "0.4fzyo82mvyr").calls.head? =
        some (Call.upload ((none : Option String).getD "documents")
          ((some "docs/").getD "" ++ toString 1700000000000 ++ "_" ++
            randomSuffix "0.4fzyo82mvyr" ++ "." ++ ext)
          sampleFile.buffer sampleFile.mimetype false) :=
  ⟨by decide, by decide,
   generatedFileName_keeps_extension failingClient sampleFile none (some "docs/") 1700000000000
     "0.4fzyo82mvyr" (by decide)⟩

end Chasmos
